import Mathlib

set_option maxRecDepth 16000

/- Verification development for `agent_orchestrator.py`, the single-file
   orchestrator of an LLM-driven Angular development agent.  The Python
   program is shallowly embedded: Python values (dict/str/int/bool/None)
   become `PyVal`, the module-level mutable globals (`CURRENT_PROJECT_PATH`,
   `NG_SERVE_PROCESS`, consumed stdin) together with the external world
   (filesystem, subprocesses) become `AgentState`, where every external
   side effect is resolved by an oracle field fixing its outcome.  Python
   exceptions are modelled by explicit raise-carrying result types; a tool
   body that catches its own exceptions is therefore a total Lean function
   on the oracle outcomes, while an uncaught raise surfaces as an explicit
   `raised` result. -/

/-- Character-list prefix test (structural and kernel-reducible; the
built-in `String` operations go through `Substring` machinery that does
not reduce definitionally, so the Python string primitives are modelled
on `List Char` instead). -/
def isPrefixCh : List Char → List Char → Bool
  | _, [] => true
  | [], _ :: _ => false
  | c :: s, p :: ps => c == p && isPrefixCh s ps

/-- Python `s.startswith(pre)`. -/
def strStartsWith (s pre : String) : Bool :=
  isPrefixCh s.data pre.data

/-- Python `s.endswith(suf)`. -/
def strEndsWith (s suf : String) : Bool :=
  isPrefixCh s.data.reverse suf.data.reverse

/-- Occurrence of `pat` anywhere in `s`. -/
def containsCh (pat : List Char) : List Char → Bool
  | [] => isPrefixCh [] pat
  | s@(_ :: rest) => isPrefixCh s pat || containsCh pat rest

/-- Python `pat in s` (`str.__contains__`). -/
def strContains (s pat : String) : Bool :=
  containsCh pat.data s.data

/-- Python `s.lower()` (ASCII suffices for every use in the source). -/
def pyLower (s : String) : String :=
  String.mk (s.data.map Char.toLower)

/-- Python default whitespace for `str.strip()`/`str.split()`. -/
def isPyWs (c : Char) : Bool :=
  c == ' ' || c == '\t' || c == '\n' || c == '\r' || c == '\x0b' || c == '\x0c'

/-- Python `s.strip()`. -/
def pyStrip (s : String) : String :=
  String.mk (((s.data.dropWhile isPyWs).reverse.dropWhile isPyWs).reverse)

/-- Split at every character satisfying `p`, keeping empty pieces. -/
def splitChAux (p : Char → Bool) : List Char → List Char → List String
  | [], acc => [String.mk acc.reverse]
  | c :: rest, acc =>
    if p c then String.mk acc.reverse :: splitChAux p rest []
    else splitChAux p rest (c :: acc)

/-- Python `str.split()` with no argument: split on whitespace and drop
empty pieces. -/
def pySplitWs (s : String) : List String :=
  (splitChAux isPyWs s.data []).filter (· ≠ "")

/-- Python `s.split(pat)` for a nonempty separator, left to right,
non-overlapping; fuel-structural so that it kernel-reduces (the fuel
`s.length` is always sufficient since each step consumes a character). -/
def splitOnSubAux (pat : List Char) : Nat → List Char → List Char → List (List Char)
  | _, [], acc => [acc.reverse]
  | 0, s, acc => [acc.reverse ++ s]
  | fuel + 1, s, acc =>
    if isPrefixCh s pat then
      acc.reverse :: splitOnSubAux pat fuel (s.drop pat.length) []
    else
      match s with
      | [] => [acc.reverse]
      | c :: rest => splitOnSubAux pat fuel rest (c :: acc)

/-- Python `s.split(pat)` for a nonempty separator string. -/
def pySplitOnSub (s pat : String) : List String :=
  (splitOnSubAux pat.data s.data.length s.data []).map String.mk

/-- posixpath.join for two components, exactly the CPython loop: a second
component that starts with the separator replaces the first entirely;
otherwise a separator is inserted unless the first is empty or already
ends with one. -/
def pyJoin (a b : String) : String :=
  if strStartsWith b "/" then b
  else if a = "" || strEndsWith a "/" then a ++ b
  else a ++ "/" ++ b

/-- Universal-newline translation performed by `open(..., 'r')` in text
mode with the default `newline=None`: `"\r\n"` and a lone `"\r"` are both
read back as `"\n"`.  (Text-mode *writing* on POSIX translates `'\n'` to
`os.linesep = '\n'`, i.e. writes the string unchanged.) -/
def univNewlines : List Char → List Char
  | [] => []
  | '\r' :: '\n' :: rest => '\n' :: univNewlines rest
  | '\r' :: rest => '\n' :: univNewlines rest
  | c :: rest => c :: univNewlines rest

/-- Python truthiness of an optional string (`if CURRENT_PROJECT_PATH:`):
`None` and the empty string are falsy; a nonempty string is returned. -/
def truthy : Option String → Option String
  | none => none
  | some s => if s = "" then none else some s

/-- Rendering an optional working directory inside an f-string: Python
prints `None` for the `None` case. -/
def optWdStr : Option String → String
  | none => "None"
  | some s => s

/-- Model of Python values as they occur in tool arguments and tool
results (JSON-like: None, str, int, bool, lists, dicts). -/
inductive PyVal where
  | pynone
  | str (s : String)
  | int (n : Int)
  | bool (b : Bool)
  | list (xs : List PyVal)
  | dict (kvs : List (String × PyVal))

/-- Lookup in an association-list dict (Python `d.get(k)` / `d[k]`),
first binding wins (Python dicts have unique keys). -/
def pgetV : List (String × PyVal) → String → Option PyVal
  | [], _ => none
  | (k', v) :: rest, k => if k' = k then some v else pgetV rest k

/-- Python `d[k] = v`: replace the value in place if the key is present,
otherwise append the binding at the end (insertion order). -/
def pset : List (String × PyVal) → String → PyVal → List (String × PyVal)
  | [], k, v => [(k, v)]
  | (k', v') :: rest, k, v =>
    if k' = k then (k, v) :: rest else (k', v') :: pset rest k v

/-- `d.get(k)` on a `PyVal` known to be a dict; `none` otherwise. -/
def pvGet (v : PyVal) (k : String) : Option PyVal :=
  match v with
  | .dict kvs => pgetV kvs k
  | _ => none

/-- `d[k] = x` on a `PyVal` dict (identity on non-dicts, which never
happens at its call sites). -/
def pvSet (v : PyVal) (k : String) (x : PyVal) : PyVal :=
  match v with
  | .dict kvs => .dict (pset kvs k x)
  | other => other

/-- `d.get(k, default)` where the call site compares against an int
(`function_result_dict.get("exit_code", 0)`); every producer stores an
int under this key. -/
def pvGetIntD (v : PyVal) (k : String) (d : Int) : Int :=
  match pvGet v k with
  | some (.int n) => n
  | _ => d

/-- String value at a key of an argument mapping, `none` when the key is
absent or its value is not a string. -/
def argStr? (args : List (String × PyVal)) (k : String) : Option String :=
  match pgetV args k with
  | some (.str s) => some s
  | _ => none

/-- `tool_args_dict.get(k, default)` specialised to string values. -/
def argStrD (args : List (String × PyVal)) (k d : String) : String :=
  (argStr? args k).getD d

/-- Outcome of opening and reading a file (the body of `read_file`'s
`try`): raw on-disk content, `FileNotFoundError`, or any other exception
with its message. -/
inductive FsRead where
  | ok (content : String)
  | missing
  | err (e : String)
deriving DecidableEq

/-- Outcome of `os.listdir`. -/
inductive FsList where
  | ok (items : List String)
  | missing
  | err (e : String)
deriving DecidableEq

/-- Outcome of `subprocess.run(command, shell=True, cwd=...)`: captured
output and exit code, `FileNotFoundError`, or another exception. -/
inductive ShellRes where
  | ok (stdout stderr : String) (exitCode : Int)
  | fnf
  | exn (e : String)
deriving DecidableEq

/-- How the `ng serve` child reacts to `terminate()` in
`stop_angular_server`: exits within the grace period, needs `kill()`, or
the stop sequence itself raises. -/
inductive TermBehavior where
  | graceful
  | needsKill
  | raises (e : String)
deriving DecidableEq

/-- One iteration of the bounded monitoring loop in
`start_angular_serve_and_get_initial_output`: whether `poll()` still
returns `None` at the head of the iteration, and the lines the reader
threads have queued on each stream since the previous drain. -/
structure Tick where
  procAlive : Bool
  stdoutLines : List String
  stderrLines : List String
deriving DecidableEq

/-- Outcome of `subprocess.Popen` for the serve command: spawn failure,
other exception, or a pid together with the monitored behaviour — the
iteration trace of the monitoring window, the lines still queued when the
queues are drained one final time after the loop, and whether the process
is still alive once monitoring ends. -/
inductive SpawnRes where
  | fnf
  | exn (e : String)
  | ok (pid : Nat) (ticks : List Tick) (finalOut finalErr : List String)
      (aliveAfter : Bool)
deriving DecidableEq

/-- The agent-visible state of `NG_SERVE_PROCESS`: the stored pid and
whether `poll()` currently returns `None`. -/
structure Proc where
  pid : Nat
  alive : Bool
deriving DecidableEq

/-- Program state: the two mutable globals of the module plus oracles
fixing the outcome of every external side effect (filesystem calls,
subprocess calls, and the operator's stdin line queue — an empty queue
means the next `input()` raises `EOFError`). -/
structure AgentState where
  currentProjectPath : Option String
  ngServeProcess : Option Proc
  fsRead : String → FsRead
  fsWriteErr : String → Option String
  pathExists : String → Bool
  isFile : String → Bool
  isDir : String → Bool
  removeErr : String → Option String
  rmtreeErr : String → Option String
  listDir : String → FsList
  shellExec : String → Option String → ShellRes
  spawn : SpawnRes
  termBehavior : TermBehavior
  userInputs : List String

/-- Source lines 185-192, `read_file(relative_filepath)`: fail in-band
when the project path is unset, otherwise join and read in text mode
(hence universal-newline translation of the raw content); both exception
branches return an in-band string. -/
def read_file (ast : AgentState) (relative_filepath : String) : String :=
  match truthy ast.currentProjectPath with
  | none => "Error: CURRENT_PROJECT_PATH is not set. Cannot read file."
  | some root =>
    let full_path := pyJoin root relative_filepath
    match ast.fsRead full_path with
    | .ok content => String.mk (univNewlines content.data)
    | .missing => "Error: File not found at " ++ full_path
    | .err e => "Error reading file " ++ full_path ++ ": " ++ e

/-- Source lines 194-202, `write_file(relative_filepath, content)`:
returns `False` when the path is unset or when anything in the try block
(`os.makedirs` / `open` / `write`) raises — the `fsWriteErr` oracle fixes
that —, otherwise records the content at the joined path and returns
`True`.  On POSIX text-mode writing stores the content unchanged. -/
def write_file (ast : AgentState) (relative_filepath content : String) :
    PyVal × AgentState :=
  match truthy ast.currentProjectPath with
  | none => (.bool false, ast)
  | some root =>
    let full_path := pyJoin root relative_filepath
    match ast.fsWriteErr full_path with
    | some _ => (.bool false, ast)
    | none =>
      (.bool true,
        { ast with
          fsRead := fun p => if p = full_path then .ok content else ast.fsRead p
          pathExists := fun p => if p = full_path then true else ast.pathExists p
          isFile := fun p => if p = full_path then true else ast.isFile p })

/-- Source lines 211-227, `list_directory_contents(relative_path)`. -/
def list_directory_contents (ast : AgentState) (relative_path : String) :
    PyVal × AgentState :=
  match truthy ast.currentProjectPath with
  | none =>
    (.dict [("error", .str "CURRENT_PROJECT_PATH is not set."),
            ("contents", .list [])], ast)
  | some root =>
    let full_path := pyJoin root relative_path
    match ast.listDir full_path with
    | .missing =>
      (.dict [("error", .str ("Directory not found at " ++ full_path)),
              ("contents", .list [])], ast)
    | .err e =>
      (.dict [("error", .str ("Error listing directory " ++ full_path ++ ": " ++ e)),
              ("contents", .list [])], ast)
    | .ok items =>
      let contents := items.map fun item =>
        PyVal.dict [("name", .str item),
                    ("type", .str (if ast.isDir (pyJoin full_path item)
                                   then "directory" else "file"))]
      (.dict [("success", .bool true), ("path", .str full_path),
              ("contents", .list contents)], ast)

/-- Paths removed by `shutil.rmtree(full)`: `full` itself and everything
below it. -/
def pathUnder (full p : String) : Bool :=
  p == full || strStartsWith p (full ++ "/")

/-- Filesystem effect of a successful deletion at `full` (`os.remove`
for a file, `shutil.rmtree` recursively for a directory). -/
def removePathFromState (ast : AgentState) (full : String) (recursive : Bool) :
    AgentState :=
  let gone := fun p => if recursive then pathUnder full p else p == full
  { ast with
    fsRead := fun p => if gone p then .missing else ast.fsRead p
    pathExists := fun p => if gone p then false else ast.pathExists p
    isFile := fun p => if gone p then false else ast.isFile p
    isDir := fun p => if gone p then false else ast.isDir p
    listDir := fun p => if gone p then .missing else ast.listDir p }

/-- Source lines 229-246, `delete_file_or_directory(relative_path)`. -/
def delete_file_or_directory (ast : AgentState) (relative_path : String) :
    PyVal × AgentState :=
  match truthy ast.currentProjectPath with
  | none =>
    (.dict [("status", .str "error"),
            ("message", .str "CURRENT_PROJECT_PATH is not set.")], ast)
  | some root =>
    let full_path := pyJoin root relative_path
    if ast.pathExists full_path = false then
      (.dict [("status", .str "error"),
              ("message", .str ("Path not found: " ++ full_path))], ast)
    else if ast.isFile full_path then
      match ast.removeErr full_path with
      | some e =>
        (.dict [("status", .str "error"),
                ("message", .str ("Error deleting " ++ full_path ++ ": " ++ e))], ast)
      | none =>
        (.dict [("status", .str "success"),
                ("message", .str ("Successfully deleted file: " ++ full_path))],
         removePathFromState ast full_path false)
    else if ast.isDir full_path then
      match ast.rmtreeErr full_path with
      | some e =>
        (.dict [("status", .str "error"),
                ("message", .str ("Error deleting " ++ full_path ++ ": " ++ e))], ast)
      | none =>
        (.dict [("status", .str "success"),
                ("message",
                 .str ("Successfully deleted directory (and its contents): " ++ full_path))],
         removePathFromState ast full_path true)
    else
      (.dict [("status", .str "error"),
              ("message", .str ("Path is not a file or directory: " ++ full_path))], ast)

/-- Source lines 204-209, `ask_user_confirmation(prompt_message)`:
consume stdin lines until a `yes`/`no` (after `.lower().strip()`); an
exhausted stdin means `input()` raises `EOFError`, which nothing in the
program catches below the top level. -/
def ask_user_confirmation : List String → String → Except String (Bool × List String)
  | [], _ => .error "EOFError: EOF when reading a line"
  | i :: rest, prompt =>
    let r := pyStrip (pyLower i)
    if r = "yes" then .ok (true, rest)
    else if r = "no" then .ok (false, rest)
    else ask_user_confirmation rest prompt

/-- Source lines 94-102: parse the project name out of an `ng new`
command for the in-tool path update — whitespace tokens, the token after
the first `"new"`, discarded when it is a flag. -/
def ngNewNameFromTokens (command : String) : Option String :=
  let parts := pySplitWs command
  match parts.findIdx? (· == "new") with
  | none => none
  | some i =>
    match parts.get? (i + 1) with
    | none => none
    | some pname => if strStartsWith pname "--" then none else some pname

/-- Working-directory resolution at the top of `execute_shell_command`
(lines 68-75): an explicit argument wins; otherwise a truthy
`CURRENT_PROJECT_PATH`; otherwise the call fails fast — unless the
command contains `"ng new"`, which is allowed to proceed with no working
directory at all (`some none`). -/
def execShellResolve (ast : AgentState) (working_directory : Option String)
    (command : String) : Option (Option String) :=
  match working_directory with
  | some w => some (some w)
  | none =>
    match truthy ast.currentProjectPath with
    | some p => some (some p)
    | none => if strContains command "ng new" then some none else none

/-- Source lines 66-123, `execute_shell_command(command, working_directory)`:
resolve the working directory, run the command (all exceptions of the try
block are converted to result dicts), and after a successful `ng new`
update `CURRENT_PROJECT_PATH` when the new project directory exists. -/
def execute_shell_command (ast : AgentState) (command : String)
    (working_directory : Option String) : PyVal × AgentState :=
  match execShellResolve ast working_directory command with
  | none =>
    (.dict [("stdout", .str ""), ("stderr", .str "Error: Working directory not set."),
            ("exit_code", .int 1)], ast)
  | some resolved =>
    match ast.shellExec command resolved with
    | .fnf =>
      (.dict [("stdout", .str ""),
              ("stderr", .str ("Error: Command or path incorrect. Could not execute in '"
                               ++ optWdStr resolved ++ "'.")),
              ("exit_code", .int 127)], ast)
    | .exn e =>
      (.dict [("stdout", .str ""),
              ("stderr", .str ("An error occurred while executing command '"
                               ++ command ++ "': " ++ e)),
              ("exit_code", .int 1)], ast)
    | .ok out err code =>
      let base : List (String × PyVal) :=
        [("stdout", .str out), ("stderr", .str err), ("exit_code", .int code)]
      if strContains command "ng new" ∧ code = 0 then
        match ngNewNameFromTokens command with
        | none => (.dict base, ast)
        | some pname =>
          match truthy resolved with
          | none => (.dict base, ast)
          | some orig =>
            let new_project_full_path := pyJoin orig pname
            if ast.isDir new_project_full_path then
              (.dict (base ++ [("new_project_path_set", .str new_project_full_path),
                               ("context_changed_project_path", .bool true)]),
               { ast with currentProjectPath := some new_project_full_path })
            else
              (.dict (pset base "stderr"
                        (.str (pyStrip (err ++ " Warning: Project directory not found post-execution.")))),
               ast)
      else (.dict base, ast)

/-- Recognition of a successful initial compilation on a stdout line
(line 152): `"Compiled successfully" in line or "successfully built" in
line.lower()`. -/
def stdoutMarker (line : String) : Bool :=
  strContains line "Compiled successfully" || strContains (pyLower line) "successfully built"

/-- Recognition of an error on a stderr line (line 155):
`"ERROR" in line or "Error" in line`. -/
def stderrMarker (line : String) : Bool :=
  strContains line "ERROR" || strContains line "Error"

/-- Result of draining one queue during one monitoring iteration. -/
structure DrainOut where
  status : String
  collected : List String
  leftover : List String
deriving DecidableEq

/-- Lines 150-152: drain the stdout queue, collecting each line; the
first success marker sets the status and breaks the inner loop, leaving
the remaining lines queued. -/
def drainStdout : List String → String → DrainOut
  | [], status => ⟨status, [], []⟩
  | line :: rest, status =>
    if stdoutMarker line then ⟨"compiled_successfully", [line], rest⟩
    else
      let r := drainStdout rest status
      ⟨r.status, line :: r.collected, r.leftover⟩

/-- Lines 153-155: drain the stderr queue completely, collecting each
line; an error marker sets the status but does not break. -/
def drainStderr : List String → String → String × List String
  | [], status => (status, [])
  | line :: rest, status =>
    let st := if stderrMarker line then "error_during_startup" else status
    let r := drainStderr rest st
    (r.1, line :: r.2)

/-- Result of the whole monitoring window. -/
structure MonOut where
  status : String
  collectedOut : List String
  collectedErr : List String
  leftoverOut : List String
  leftoverErr : List String
deriving DecidableEq

/-- Lines 147-158, the bounded monitoring loop: at each iteration poll
the process (a dead process sets the error status and breaks), drain
stdout then stderr against the lines queued so far, and break early only
when the status has become `compiled_successfully`. -/
def monitorLoop : List Tick → String → List String → List String → MonOut
  | [], status, pOut, pErr => ⟨status, [], [], pOut, pErr⟩
  | t :: rest, status, pOut, pErr =>
    if t.procAlive = false then
      ⟨"error_during_startup", [], [], pOut ++ t.stdoutLines, pErr ++ t.stderrLines⟩
    else
      let r1 := drainStdout (pOut ++ t.stdoutLines) status
      let r2 := drainStderr (pErr ++ t.stderrLines) r1.status
      if r2.1 = "compiled_successfully" then
        ⟨r2.1, r1.collected, r2.2, r1.leftover, []⟩
      else
        let r3 := monitorLoop rest r2.1 r1.leftover []
        ⟨r3.status, r1.collected ++ r3.collectedOut, r2.2 ++ r3.collectedErr,
         r3.leftoverOut, r3.leftoverErr⟩

/-- Lines 138-169: spawn the serve process and monitor it.  After the
loop the queues are drained once more (collecting leftovers plus lines
that arrived since), a still-`"compiling"` status is rewritten to
`"compiling_or_timeout"`, and the final message is assembled. -/
def serveSpawn (ast : AgentState) (command resolved : String)
    (monitor_duration_seconds : Int) : PyVal × AgentState :=
  match ast.spawn with
  | .fnf =>
    let em := "Error: Command or path incorrect. Could not execute in '" ++ resolved ++ "'."
    (.dict [("status", .str "error"), ("message", .str em), ("pid", .pynone),
            ("initial_stdout_log", .str ""), ("initial_stderr_log", .str em)], ast)
  | .exn e =>
    let em := "An error occurred while starting command '" ++ command ++ "': " ++ e
    (.dict [("status", .str "error"), ("message", .str em), ("pid", .pynone),
            ("initial_stdout_log", .str ""), ("initial_stderr_log", .str e)], ast)
  | .ok pid ticks finalOut finalErr aliveAfter =>
    let m := monitorLoop ticks "compiling" [] []
    let allOut := m.collectedOut ++ m.leftoverOut ++ finalOut
    let allErr := m.collectedErr ++ m.leftoverErr ++ finalErr
    let fm0 := "Angular serve command '" ++ command ++ "' initiated. "
    let sm : String × String :=
      if m.status = "compiled_successfully" then
        (m.status, fm0 ++ "Initial compilation reported as successful. Monitor terminal for ongoing logs. App should be at http://localhost:4200.")
      else if m.status = "error_during_startup" then
        (m.status, fm0 ++ "Errors detected during initial startup. See logs. Monitor terminal for ongoing logs.")
      else
        ("compiling_or_timeout",
         fm0 ++ "Initial monitoring period of " ++ toString monitor_duration_seconds
             ++ "s ended. Status is 'compiling_or_timeout'. Monitor terminal for ongoing logs and report any errors. App may be at http://localhost:4200 if compilation completes.")
    (.dict [("status", .str sm.1), ("command", .str command), ("pid", .int pid),
            ("message", .str sm.2),
            ("initial_stdout_log", .str (String.intercalate "\n" allOut)),
            ("initial_stderr_log", .str (String.intercalate "\n" allErr))],
     { ast with ngServeProcess := some ⟨pid, aliveAfter⟩ })

/-- Lines 127-130: working-directory resolution of the serve tool — an
explicit argument wins, else a truthy `CURRENT_PROJECT_PATH`, else the
call fails. -/
def serveResolve (ast : AgentState) (working_directory : Option String) :
    Option String :=
  match working_directory with
  | some w => some w
  | none => truthy ast.currentProjectPath

/-- Source lines 125-169,
`start_angular_serve_and_get_initial_output(command, working_directory,
monitor_duration_seconds)`: the working directory is resolved *before*
the already-running check; a live `NG_SERVE_PROCESS` short-circuits with
an `already_running` status and no spawn. -/
def start_angular_serve_and_get_initial_output (ast : AgentState) (command : String)
    (working_directory : Option String) (monitor_duration_seconds : Int) :
    PyVal × AgentState :=
  match serveResolve ast working_directory with
  | none =>
    (.dict [("status", .str "error"), ("message", .str "Working directory not set."),
            ("pid", .pynone), ("initial_stdout_log", .str ""),
            ("initial_stderr_log", .str "")], ast)
  | some resolved =>
    match ast.ngServeProcess with
    | some p =>
      if p.alive then
        let msg := "'ng serve' (PID: " ++ toString p.pid
                   ++ ") seems to be already running. Please use 'stop server' first if you want to restart."
        (.dict [("status", .str "already_running"), ("command", .str "ng serve"),
                ("pid", .int p.pid), ("message", .str msg),
                ("initial_stdout_log", .str ""), ("initial_stderr_log", .str "")], ast)
      else serveSpawn ast command resolved monitor_duration_seconds
    | none => serveSpawn ast command resolved monitor_duration_seconds

/-- Source lines 171-183, `stop_angular_server()`. -/
def stop_angular_server (ast : AgentState) : PyVal × AgentState :=
  match ast.ngServeProcess with
  | some p =>
    if p.alive then
      match ast.termBehavior with
      | .graceful =>
        (.dict [("status", .str "stopped"),
                ("message", .str "'ng serve' process terminated successfully.")],
         { ast with ngServeProcess := none })
      | .needsKill =>
        (.dict [("status", .str "killed"), ("message", .str "'ng serve' process killed.")],
         { ast with ngServeProcess := none })
      | .raises e =>
        (.dict [("status", .str "error"),
                ("message", .str ("Error stopping 'ng serve': " ++ e))], ast)
    else
      (.dict [("status", .str "not_running"),
              ("message", .str "'ng serve' process not found or not running.")], ast)
  | none =>
    (.dict [("status", .str "not_running"),
            ("message", .str "'ng serve' process not found or not running.")], ast)

/-- Line 42: the retry ceiling. -/
def MAX_ERROR_FIX_ATTEMPTS : Nat := 3

/-- The `original_failed_command_details` dict (line 493): the failing
command string and the tool that ran it (`args` are not needed by any
observable behaviour below). -/
structure Tracker where
  command : String
  toolName : String
deriving DecidableEq

/-- The per-user-turn error-recovery state: `original_failed_command_details`
and `current_fix_attempt` (lines 405-406), both reset at the start of
`process_user_command`. -/
structure FixState where
  tracker : Option Tracker
  attempts : Nat
deriving DecidableEq

/-- Whether a result dict's `status` entry is the given string
(`function_result_dict.get("status") == s`). -/
def pvStatusIs (payload : PyVal) (s : String) : Bool :=
  match pvGet payload "status" with
  | some (.str s2) => s2 == s
  | _ => false

/-- Lines 481-489: classify a tool result as an error and extract the
failing command string.  A `delete_file_or_directory` error sets
`is_error` without a command.  The short-circuiting `and` means the
result dict is only inspected for the three tools that always return
dicts. -/
def classifyError (toolName : String) (payload : PyVal) (argsCmd : Option String) :
    Bool × Option String :=
  if toolName = "execute_shell_command" then
    if pvGetIntD payload "exit_code" 0 ≠ 0 then (true, argsCmd) else (false, none)
  else if toolName = "start_angular_serve_and_get_initial_output" then
    if pvStatusIs payload "error_during_startup" then (true, argsCmd)
    else (false, none)
  else if toolName = "delete_file_or_directory" then
    if pvStatusIs payload "error" then (true, none) else (false, none)
  else (false, none)

/-- Lines 491-503: update the tracker after one classified tool result.
An error with a truthy command string creates or keeps the tracker
(resetting the counter on a command change), then increments the counter
if it is below the ceiling and otherwise drops the tracker without
incrementing.  A non-error whose `command` argument equals the tracked
command clears the tracker and the counter. -/
def updateFixState (fx : FixState) (toolName : String) (isErr : Bool)
    (cmdFailed argsCmd : Option String) : FixState :=
  match cmdFailed with
  | some c =>
    if isErr ∧ c ≠ "" then
      let fx1 : FixState :=
        match fx.tracker with
        | some t => if t.command = c then fx else ⟨some ⟨c, toolName⟩, 0⟩
        | none => ⟨some ⟨c, toolName⟩, 0⟩
      if fx1.attempts < MAX_ERROR_FIX_ATTEMPTS then ⟨fx1.tracker, fx1.attempts + 1⟩
      else ⟨none, fx1.attempts⟩
    else
      match fx.tracker with
      | some t =>
        if isErr = false ∧ argsCmd = some t.command then ⟨none, 0⟩ else fx
      | none => fx
  | none =>
    match fx.tracker with
    | some t =>
      if isErr = false ∧ argsCmd = some t.command then ⟨none, 0⟩ else fx
    | none => fx

/-- One observable event for the tracker within a user turn: a tool
result classified as a failure of command `cmd` by tool `toolName`
(for such an event `command_that_failed = cmd` is also the call's
`command` argument), or a non-error result whose `command` argument was
`argsCmd`. -/
inductive FixEvent where
  | failure (cmd toolName : String)
  | success (argsCmd : Option String)
deriving DecidableEq

/-- The tracker transition induced by one event, i.e. `updateFixState`
with the classification outputs of lines 481-503. -/
def fixStep (fx : FixState) : FixEvent → FixState
  | .failure cmd toolName => updateFixState fx toolName true (some cmd) (some cmd)
  | .success argsCmd => updateFixState fx "" false none argsCmd

/-- A whole user turn's interleaving of classified results, starting from
the per-turn reset state of lines 405-406. -/
def runFixEvents (evts : List FixEvent) : FixState :=
  evts.foldl fixStep ⟨none, 0⟩

/-- One part of an LLM response or of a logged turn: text, a tool-call
request, or a tool-call result. -/
inductive MsgPart where
  | text (s : String)
  | functionCall (name : String) (args : List (String × PyVal))
  | functionResponse (name : String) (response : PyVal)

/-- One turn of `conversation_history_for_this_run`. -/
structure Turn where
  role : String
  parts : List MsgPart

/-- A tool-call request extracted from a logged model turn. -/
structure FunctionCall where
  name : String
  args : List (String × PyVal)

/-- One entry of `tool_response_parts_for_api` (lines 474-479), before
being wrapped as a `function_response` part. -/
structure RespPart where
  name : String
  result : PyVal

/-- Lines 475-478: the wire shape of one tool result part. -/
def respToPart (p : RespPart) : MsgPart :=
  .functionResponse p.name (.dict [("result", p.result)])

/-- Lines 409-414: collect the function calls of the last history entry,
which contribute only when that entry is a model turn. -/
def extractCalls (t : Turn) : List FunctionCall :=
  if t.role = "model" then
    t.parts.filterMap fun p =>
      match p with
      | .functionCall n a => some ⟨n, a⟩
      | _ => none
  else []

/-- Lines 396-401 and 519-522: keep only nonempty text parts and
function-call parts of a raw model response when logging it. -/
def filterModelParts (ps : List MsgPart) : List MsgPart :=
  ps.filterMap fun p =>
    match p with
    | .text s => if s = "" then none else some (.text s)
    | .functionCall n a => some (.functionCall n a)
    | .functionResponse _ _ => none

/-- Line 249-258: the keys of `available_tools_python_functions`. -/
def registryNames : List String :=
  ["execute_shell_command", "start_angular_serve_and_get_initial_output",
   "stop_angular_server", "write_file", "read_file", "list_directory_contents",
   "delete_file_or_directory", "ask_user_confirmation"]

/-- A tool call after Python keyword-argument binding
(`tool_function(**tool_args_dict)`) has succeeded. -/
inductive BoundCall where
  | exec (command : String) (wd : Option String)
  | serve (command : String) (wd : Option String) (mds : Int)
  | stop
  | write (rel content : String)
  | readf (rel : String)
  | listd (rel : String)
  | delete (rel : String)
  | ask (prompt : String)

/-- Keyword binding of `tool_function(**tool_args_dict)` for each
registered tool: a missing required parameter or an unexpected keyword is
a `TypeError` raised at the call site, which nothing below the top level
catches.  (A value of the wrong type for a path/command parameter is
modelled as the same kind of uncaught `TypeError`; in CPython it would
surface a few lines later, e.g. from `os.path.join`, equally uncaught.) -/
def bindCall (name : String) (args : List (String × PyVal)) : Except String BoundCall :=
  let keysAmong := fun (allowed : List String) =>
    args.all fun kv => allowed.contains kv.1
  if name = "execute_shell_command" then
    if keysAmong ["command", "working_directory"] then
      match argStr? args "command" with
      | some c =>
        if (pgetV args "working_directory").isSome then
          match argStr? args "working_directory" with
          | some w => .ok (.exec c (some w))
          | none => .error "TypeError: bad argument for execute_shell_command"
        else .ok (.exec c none)
      | none => .error "TypeError: bad argument for execute_shell_command"
    else .error "TypeError: unexpected keyword argument for execute_shell_command"
  else if name = "start_angular_serve_and_get_initial_output" then
    if keysAmong ["command", "working_directory", "monitor_duration_seconds"] then
      match argStr? args "command" with
      | some c =>
        let wd? :=
          if (pgetV args "working_directory").isSome then
            match argStr? args "working_directory" with
            | some w => some (some w)
            | none => none
          else some none
        let mds? :=
          match pgetV args "monitor_duration_seconds" with
          | some (.int n) => some n
          | some _ => none
          | none => some 20
        match wd?, mds? with
        | some wd, some mds => .ok (.serve c wd mds)
        | _, _ => .error "TypeError: bad argument for start_angular_serve_and_get_initial_output"
      | none => .error "TypeError: bad argument for start_angular_serve_and_get_initial_output"
    else .error "TypeError: unexpected keyword argument for start_angular_serve_and_get_initial_output"
  else if name = "stop_angular_server" then
    if keysAmong [] then .ok .stop
    else .error "TypeError: unexpected keyword argument for stop_angular_server"
  else if name = "write_file" then
    if keysAmong ["relative_filepath", "content"] then
      match argStr? args "relative_filepath", argStr? args "content" with
      | some r, some c => .ok (.write r c)
      | _, _ => .error "TypeError: bad argument for write_file"
    else .error "TypeError: unexpected keyword argument for write_file"
  else if name = "read_file" then
    if keysAmong ["relative_filepath"] then
      match argStr? args "relative_filepath" with
      | some r => .ok (.readf r)
      | none => .error "TypeError: bad argument for read_file"
    else .error "TypeError: unexpected keyword argument for read_file"
  else if name = "list_directory_contents" then
    if keysAmong ["relative_path"] then
      if (pgetV args "relative_path").isSome then
        match argStr? args "relative_path" with
        | some r => .ok (.listd r)
        | none => .error "TypeError: bad argument for list_directory_contents"
      else .ok (.listd ".")
    else .error "TypeError: unexpected keyword argument for list_directory_contents"
  else if name = "delete_file_or_directory" then
    if keysAmong ["relative_path"] then
      match argStr? args "relative_path" with
      | some r => .ok (.delete r)
      | none => .error "TypeError: bad argument for delete_file_or_directory"
    else .error "TypeError: unexpected keyword argument for delete_file_or_directory"
  else if name = "ask_user_confirmation" then
    if keysAmong ["prompt_message"] then
      match argStr? args "prompt_message" with
      | some p => .ok (.ask p)
      | none => .error "TypeError: bad argument for ask_user_confirmation"
    else .error "TypeError: unexpected keyword argument for ask_user_confirmation"
  else .error "TypeError: unknown tool function"

/-- Run a bound tool call.  Only `ask_user_confirmation` can raise (its
`input()` on an exhausted stdin); every other tool body converts its
exceptions into an in-band result. -/
def runBound (ast : AgentState) : BoundCall → Except String (PyVal × AgentState)
  | .exec c wd => .ok (execute_shell_command ast c wd)
  | .serve c wd mds => .ok (start_angular_serve_and_get_initial_output ast c wd mds)
  | .stop => .ok (stop_angular_server ast)
  | .write r c => .ok (write_file ast r c)
  | .readf r => .ok (.str (read_file ast r), ast)
  | .listd r => .ok (list_directory_contents ast r)
  | .delete r => .ok (delete_file_or_directory ast r)
  | .ask p =>
    match ask_user_confirmation ast.userInputs p with
    | .error e => .error e
    | .ok (b, rest) => .ok (.bool b, { ast with userInputs := rest })
/-- Lines 278-320: the system-prompt template, verbatim, with the
`\x7bcurrent_project_path_placeholder\x7d` placeholder. -/
def systemPromptTemplate : String :=
  "You are an expert Angular development assistant AI. Your primary function is to understand user tasks related to Angular development and break them down into a sequence of available tool calls to achieve the user's goal. You have full access to the user's project files and folders *through the tools provided*. Available tools: `execute_shell_command`, `start_angular_serve_and_get_initial_output`, `stop_angular_server`, `read_file`, `write_file`, `list_directory_contents`, `delete_file_or_directory`, `ask_user_confirmation`. The current Angular project path you should operate on is: '\x7bcurrent_project_path_placeholder\x7d'. If this is 'Not set' and a command requires a project path (like reading a file or 'ng generate' not via 'ng new'), you MUST first inform the user that the path is not set and ask them to provide it. Do not attempt tool calls that require a project path if it's not set. Do not guess the project path. CORE PRINCIPLE OF TOOL USAGE: To perform ANY action or gather ANY information related to the user's project (e.g., reading files, writing files, creating components, running CLI commands, listing directories, deleting files), you MUST use the appropriate tool by requesting a function call. Do not state that you *would* do something, or that you *cannot* do something because you don't have direct access; instead, formulate a plan to use your available tools to achieve the task. If a user asks you to 'modify file X', your first step is to use the 'read_file' tool for file X, then propose changes, then (after confirmation) use 'write_file'. Strive to minimize back-and-forth. If a task clearly requires multiple pieces of information (e.g., reading several files to understand an error), try to request all necessary `read_file` operations in one turn if your plan requires it. Similarly, after gathering information, try to formulate a complete solution or next major action (like a full code fix to be written) rather than many small interrogative steps, unless clarification is genuinely needed.YOUR GENERAL WORKFLOW FOR ANY USER TASK: 1.  ANALYZE THE TASK: Understand the user's specific goal. 2.  GATHER INFORMATION (Proactively use tools): If the task requires understanding existing file content, project structure, or current state, your FIRST step is to request the 'read_file' or 'list_directory_contents' tools. For example, if asked to 'modify a component', first use 'read_file' to get its current content. If asked to 'remove unnecessary files', first use 'list_directory_contents'. Do NOT ask the user to provide file contents or paths if you can reasonably infer them or discover them with 'list_directory_contents' and then read them with 'read_file'.     - FILE PATH INFERENCE: For common Angular files (e.g., 'app.component.ts', 'angular.json', 'app.routes.ts', 'main.ts', 'styles.scss'), try to infer their standard relative paths (e.g., 'src/app/app.component.ts', 'angular.json'). Use 'read_file' with these inferred paths. If CURRENT_PROJECT_PATH is set, all relative paths are from there.     - If a file path is ambiguous or you cannot confidently infer it, use 'list_directory_contents' on likely parent directories (e.g., 'src/app') to help locate it, or then ask the user for the specific relative filepath if listing doesn't clarify. 3.  PLAN THE STEPS: Briefly outline the sequence of tool calls needed. For simple, direct commands (e.g., 'ng generate component X'), you can often proceed directly to requesting the tool execution after ensuring pre-conditions like project path are met. 4.  REQUEST TOOL EXECUTION (via Function Calls):     - COMMAND EXECUTION POLICY: For standard CLI actions (e.g., 'ng generate component MyComponent', 'ng build', 'npm install some-package' WITHOUT risky flags, 'ng serve', 'stop_angular_server'), if the user's intent is clear and pre-conditions (like project path) are met, directly request the appropriate execution tool. You generally DO NOT need to use 'ask_user_confirmation' for these standard commands unless the user's request is ambiguous, implies an unusually large/risky operation, or 'MANDATORY CONFIRMATIONS' applies. The user's direct instruction is the primary confirmation for these.     - MANDATORY CONFIRMATIONS: You MUST request 'ask_user_confirmation' BEFORE requesting: 'write_file' (always!), 'execute_shell_command' for 'ng new', 'execute_shell_command' for 'npm install' or 'ng add' WITH risky flags (e.g., '--force', '--legacy-peer-deps', '-g'), 'delete_file_or_directory'. The confirmation message MUST be specific and state the exact action and path.     - HANDLING USER INSISTENCE ON RISKY ACTIONS: If you've warned about a risky action and suggested a safer alternative, and the user EXPLICITLY insists on the risky action, then you MUST first use 'ask_user_confirmation' detailing the EXACT risky command/action. If confirmed, then request the tool call. 5.  PROCESS TOOL RESULTS: Analyze the result from the executed tool. 6.  CONTINUE OR COMPLETE: Based on the tool result, decide the next step: request another tool call, generate more code to be written (and then plan to write it), or provide a final response. INTERACTIVE CLI COMMANDS (like 'ng add @angular/material'): 1. When the user asks to use a command like 'ng add @angular/material' which is known to require interactive prompts (like choosing a theme, setting up typography, browser animations), you should first attempt to construct the command with common non-interactive defaults if possible. For example, for 'ng add @angular/material', you might assume a default theme (e.g., indigo-pink) and typography setup. 2. Before executing, you MUST inform the user of the defaults you are assuming (e.g., 'I will attempt to install Angular Material with the indigo-pink theme and default typography settings.'). 3. Then, you MUST use the 'ask_user_confirmation' tool to confirm if the user is okay with these defaults and with running the command. 4. If the user confirms, then request 'execute_shell_command' with the fully constructed command including any non-interactive flags you've determined. 5. If such non-interactive flags are unknown or insufficient, or if the command still fails with a 'No terminal detected' error, then inform the user that the command requires manual interaction and they should run it in their own terminal. Ask them to report back when they have completed it. Do not repeatedly try the command if it fails due to interactivity. SPECIFIC TOOL NOTES: 'start_angular_serve_and_get_initial_output': After this tool returns 'status: started' or 'compiled_successfully', inform the user 'ng serve' is running, they should monitor their terminal for output and report any subsequent errors back to you. Your task of *starting* the server is then complete for that specific request. 'delete_file_or_directory': If user asks to 'remove unnecessary files', first use 'list_directory_contents', then present candidates to the user, ask if they want to delete any *specific path*, then use 'ask_user_confirmation' for that specific path, then call 'delete_file_or_directory'. ERROR HANDLING & FIXING WORKFLOW (if a command via 'execute_shell_command' or 'start_angular_serve_and_get_initial_output' fails): 1. Inform user. Analyze 'stderr'. Identify problematic file(s). 2. Use 'read_file' to get content of suspected file(s). 3. Generate a specific code fix. 4. MUST use 'ask_user_confirmation' to confirm applying the fix to specific file(s), detailing changes. 5. If confirmed, use 'write_file'. 6. Request re-run of the original failed command. 7. If successful, inform user. If fails again, inform, present new error, suggest another approach or ask user for guidance. Limit automated fix attempts (e.g., 1-2) per original error. "

/-- Line 329: the canned model acknowledgement seeding the history. -/
def modelGreeting : String :=
  "Understood. I am an expert Angular development assistant. I will proactively use my tools to gather information like file contents or directory listings when needed to fulfill the user's request. I will follow all specified policies regarding command execution, confirmations, and error handling, including attempting to use non-interactive flags for commands like 'ng add' after informing and confirming with the user. I'm ready for your command."

/-- Lines 364-371: the rewritten instruction for restart intents. -/
def restartAugment (u : String) : String :=
  "The user's command is: '" ++ u ++ "'. This implies they want to restart the Angular development server. Your plan should be: 1. Request the 'ask_user_confirmation' tool to confirm stopping the server (e.g., 'Confirm stopping the current dev server?'). 2. If confirmed, request the 'stop_angular_server' tool. 3. After the 'stop_angular_server' tool result is processed (indicating it's stopped or wasn't running), request the 'ask_user_confirmation' tool to confirm starting the server (e.g., 'Confirm starting the dev server?'). 4. If confirmed, request the 'start_angular_serve_and_get_initial_output' tool with the command 'ng serve' and appropriate working_directory."

/-- Lines 374-377: the rewritten instruction for stop intents. -/
def stopAugment (u : String) : String :=
  "The user's command is: '" ++ u ++ "'. This implies they want to stop the Angular development server. Please plan to first use the 'ask_user_confirmation' tool (e.g., 'Confirm stopping the dev server?'), and if confirmed, then request the 'stop_angular_server' tool."

/-- Lines 380-385: the rewritten instruction for serve intents. -/
def serveAugment (u : String) : String :=
  "The user's command is: '" ++ u ++ "'. This implies they want to start the Angular development server. Please plan to use the 'start_angular_serve_and_get_initial_output' tool with the command 'ng serve' (or 'ng serve --open' if implied or beneficial). Adhere to the COMMAND EXECUTION POLICY regarding user confirmations for this action. Check if CURRENT_PROJECT_PATH is set. If not, ask the user for it before attempting to start the server."

/-- Lines 322-325: instantiate the template with the current project path
(or the `Not set` text when it is falsy). -/
def effectiveSystemPrompt (path : Option String) : String :=
  systemPromptTemplate.replace "\x7bcurrent_project_path_placeholder\x7d"
    (match truthy path with
     | some p => p
     | none => "Not set (User needs to provide if task requires it)")

/-- Lines 327-334, the history effect of `initialize_global_chat_session`
(its Lean name avoids a reserved word): the transcript is cleared and
reseeded with the system prompt and the canned model acknowledgement. -/
def initHistory (path : Option String) : List Turn :=
  [⟨"user", [.text (effectiveSystemPrompt path)]⟩,
   ⟨"model", [.text modelGreeting]⟩]

/-- Line 359 keyword lists. -/
def serveKeywords : List String :=
  ["run the app", "serve the app", "start the app", "start server",
   "launch the app", "run app", "serve app"]

/-- Line 360 keyword lists. -/
def stopKeywords : List String :=
  ["stop server", "kill server", "terminate server", "stop the dev server"]

/-- Line 361 keyword lists. -/
def restartKeywords : List String :=
  ["restart server", "stop and start server", "bounce server",
   "stop and restart the server"]

/-- Lines 355-386: deterministic input augmentation keyed on keyword
matching against the lowercased input, restart checked first. -/
def augmentInput (user_input : String) : String :=
  let lower := pyLower user_input
  if restartKeywords.any (fun k => strContains lower k) then restartAugment user_input
  else if stopKeywords.any (fun k => strContains lower k) then stopAugment user_input
  else if serveKeywords.any (fun k => strContains lower k) then serveAugment user_input
  else user_input

/-- Result of the raw dispatch of one call (before error classification):
the payload plus the state and history as mutated, or an uncaught raise
carrying the state and history at the raise point. -/
inductive RawOut where
  | ok (payload : PyVal) (ast : AgentState) (hist : List Turn)
  | raisedR (e : String) (ast : AgentState) (hist : List Turn)

/-- Line 453's `function_result_dict.get("exit_code") == 0` as a Bool
(an absent key compares unequal). -/
def pvExitCodeIsZero (payload : PyVal) : Bool :=
  match pvGet payload "exit_code" with
  | some (.int n) => n == 0
  | _ => false

/-- Lines 453-469: after running an `ng new` command through the special
dispatch branch, re-parse the project name (`split("ng new")[1].strip()
.split(" ")[0]` — a different parser from the one inside the tool),
update `CURRENT_PROJECT_PATH` when the directory exists, and reseed the
chat history when that changed the path.  Note that the tool itself
usually updates the global first (line 107), making `old == new` here, so
the reseed fires only when the two parsers disagree. -/
def ngNewTrack (payload : PyVal) (ast : AgentState) (hist : List Turn)
    (pname : String) (actualDir : Option String) : RawOut :=
  if pvExitCodeIsZero payload ∧ pname ≠ "" ∧ (truthy actualDir).isSome then
    let full := pyJoin ((truthy actualDir).getD "") pname
    if ast.isDir full then
      let old := ast.currentProjectPath
      let ast2 := { ast with currentProjectPath := some full }
      let payload2 := pvSet payload "new_project_path_set" (.str full)
      if old ≠ some full then .ok payload2 ast2 (initHistory ast2.currentProjectPath)
      else .ok payload2 ast2 hist
    else
      let stderrNow :=
        match pvGet payload "stderr" with
        | some (.str s) => s
        | _ => ""
      if stderrNow = "" then
        .ok (pvSet payload "stderr"
              (.str (pyStrip (stderrNow ++ " Warning: Project directory not found post-execution."))))
          ast hist
      else .ok payload ast hist
  else .ok payload ast hist

/-- Lines 433-469, the special dispatch path for an
`execute_shell_command` whose command contains `"ng new"`: when the model
supplied no truthy working directory the operator is prompted for a
parent directory (`input()` may raise `EOFError`), an invalid directory
short-circuits with an error payload, and a successful run is followed by
the path-tracking of `ngNewTrack`. -/
def ngNewDispatch (args : List (String × PyVal)) (ast : AgentState) (hist : List Turn) :
    RawOut :=
  let cmd := argStrD args "command" ""
  let pname := ((pySplitOnSub (pyStrip ((pySplitOnSub cmd "ng new").getD 1 "")) " ").headD "")
  match truthy (argStr? args "working_directory") with
  | none =>
    match ast.userInputs with
    | [] => .raisedR "EOFError: EOF when reading a line" ast hist
    | i :: rest =>
      let parent := pyStrip i
      let ast1 := { ast with userInputs := rest }
      if ast1.isDir parent = false then
        .ok (.dict [("error", .str ("Invalid parent directory for 'ng new': " ++ parent)),
                    ("exit_code", .int 1)]) ast1 hist
      else
        let args2 := pset args "working_directory" (.str parent)
        match bindCall "execute_shell_command" args2 with
        | .error e => .raisedR e ast1 hist
        | .ok bc =>
          match runBound ast1 bc with
          | .error e => .raisedR e ast1 hist
          | .ok (payload, ast2) => ngNewTrack payload ast2 hist pname (some parent)
  | some wd =>
    match bindCall "execute_shell_command" args with
    | .error e => .raisedR e ast hist
    | .ok bc =>
      match runBound ast bc with
      | .error e => .raisedR e ast hist
      | .ok (payload, ast2) => ngNewTrack payload ast2 hist pname (some wd)

/-- Lines 426-471: raw dispatch of one requested call — the unknown-tool
check, the `ng new` special path, or plain keyword binding plus
execution. -/
def dispatchRaw (ast : AgentState) (hist : List Turn) (call : FunctionCall) : RawOut :=
  if registryNames.contains call.name = false then
    .ok (.dict [("error", .str ("Unknown tool: " ++ call.name))]) ast hist
  else if call.name = "execute_shell_command" ∧ strContains (argStrD call.args "command" "") "ng new" then
    ngNewDispatch call.args ast hist
  else
    match bindCall call.name call.args with
    | .error e => .raisedR e ast hist
    | .ok bc =>
      match runBound ast bc with
      | .error e => .raisedR e ast hist
      | .ok (payload, ast2) => .ok payload ast2 hist

/-- Result of dispatching one call including the error-classification
bookkeeping of lines 481-503. -/
inductive Disp1Out where
  | ok (part : RespPart) (ast : AgentState) (fx : FixState) (hist : List Turn)
  | raised (e : String) (ast : AgentState) (fx : FixState) (hist : List Turn)

/-- Lines 473-503: append the result part for one dispatched call and
update the error-recovery tracker from its classification. -/
def finishDispatch (call : FunctionCall) (payload : PyVal) (ast : AgentState)
    (fx : FixState) (hist : List Turn) : Disp1Out :=
  let argsCmd := argStr? call.args "command"
  let ce := classifyError call.name payload argsCmd
  .ok ⟨call.name, payload⟩ ast (updateFixState fx call.name ce.1 ce.2 argsCmd) hist

/-- Dispatch of a single requested call (lines 421-503). -/
def dispatchOne (ast : AgentState) (fx : FixState) (hist : List Turn)
    (call : FunctionCall) : Disp1Out :=
  match dispatchRaw ast hist call with
  | .raisedR e a h => .raised e a fx h
  | .ok payload a h => finishDispatch call payload a fx h

/-- Result of dispatching a whole batch of calls. -/
inductive DispOut where
  | ok (parts : List RespPart) (ast : AgentState) (fx : FixState) (hist : List Turn)
  | raised (e : String) (ast : AgentState) (fx : FixState) (hist : List Turn)

/-- The `for fc_data in function_calls_from_last_model_turn` loop (line
421): dispatch one call at a time, in request order, accumulating one
result part per call; an uncaught raise aborts the batch with the state
reached so far. -/
def dispatchCalls : List FunctionCall → AgentState → FixState → List Turn → DispOut
  | [], ast, fx, hist => .ok [] ast fx hist
  | c :: rest, ast, fx, hist =>
    match dispatchOne ast fx hist c with
    | .raised e a f h => .raised e a f h
    | .ok part a f h =>
      match dispatchCalls rest a f h with
      | .raised e a2 f2 h2 => .raised e a2 f2 h2
      | .ok parts a2 f2 h2 => .ok (part :: parts) a2 f2 h2

/-- Outcome of one iteration body of the `while True` loop of lines
408-524, up to (but not including) the follow-up model call. -/
inductive StepOut where
  | finished (hist : List Turn) (ast : AgentState)
  | raisedS (e : String) (hist : List Turn) (ast : AgentState)
  | toLLM (hist : List Turn) (ast : AgentState) (fx : FixState)

/-- One iteration body: extract the calls of the last history turn (break
when there are none), dispatch them, and append the single tool turn
holding one result part per call, in order (lines 409-508). -/
def turnStep (hist : List Turn) (ast : AgentState) (fx : FixState) : StepOut :=
  match extractCalls (hist.getLastD ⟨"", []⟩) with
  | [] => .finished hist ast
  | c :: cs =>
    match dispatchCalls (c :: cs) ast fx hist with
    | .raised e a _ h => .raisedS e h a
    | .ok parts a f h =>
      if parts.isEmpty then .finished h a
      else .toLLM (h ++ [⟨"tool", parts.map respToPart⟩]) a f

/-- Final outcome of one `process_user_command` turn: the transcript and
state as left behind, plus the logged top-level exception when one was
raised (lines 537-539 catch everything, log it, and abandon the turn). -/
structure TurnResult where
  history : List Turn
  ast : AgentState
  raised : Option String

/-- The tool-call round loop of lines 408-524, driven by an oracle list
of model responses (`chat_session.send_message` either answers with
parts or raises; an exhausted oracle models a transport failure). -/
def turnLoop : List (Except String (List MsgPart)) → List Turn → AgentState → FixState →
    TurnResult
  | [], hist, ast, fx =>
    match turnStep hist ast fx with
    | .finished h a => ⟨h, a, none⟩
    | .raisedS e h a => ⟨h, a, some e⟩
    | .toLLM h a _ => ⟨h, a, some "Exception: LLM request failed"⟩
  | r :: rest, hist, ast, fx =>
    match turnStep hist ast fx with
    | .finished h a => ⟨h, a, none⟩
    | .raisedS e h a => ⟨h, a, some e⟩
    | .toLLM h a f =>
      match r with
      | .error e => ⟨h, a, some e⟩
      | .ok resp =>
        let mps := filterModelParts resp
        turnLoop rest (if mps.isEmpty then h else h ++ [⟨"model", mps⟩]) a f

/-- Lines 342-539, `process_user_command(user_input)` for an initialized
chat session: augment the input, append the user turn, make the first
model call, then run the tool-call round loop; any exception escaping the
body is caught at lines 537-539 (logged, turn abandoned, transcript and
state left exactly as reached). -/
def process_user_command (user_input : String)
    (llm : List (Except String (List MsgPart))) (hist : List Turn)
    (ast : AgentState) : TurnResult :=
  let processed := augmentInput user_input
  let hist1 := hist ++ [⟨"user", [.text processed]⟩]
  match llm with
  | [] => ⟨hist1, ast, some "Exception: LLM request failed"⟩
  | .error e :: _ => ⟨hist1, ast, some e⟩
  | .ok resp :: rest =>
    let mps := filterModelParts resp
    let hist2 := if mps.isEmpty then hist1 else hist1 ++ [⟨"model", mps⟩]
    turnLoop rest hist2 ast ⟨none, 0⟩

/- Theorems.  Each claim of the specification gets one theorem below
(with a witness when the theorem has hypotheses, and a counterexample
when the claim as stated fails on the code). -/

/-- A closed state with inert oracles, used to instantiate theorems on
concrete inputs. -/
def sampleState : AgentState := {
  currentProjectPath := none
  ngServeProcess := none
  fsRead := fun _ => .missing
  fsWriteErr := fun _ => none
  pathExists := fun _ => false
  isFile := fun _ => false
  isDir := fun _ => false
  removeErr := fun _ => none
  rmtreeErr := fun _ => none
  listDir := fun _ => .missing
  shellExec := fun _ _ => .ok "" "" 0
  spawn := .fnf
  termBehavior := .graceful
  userInputs := []
}

/-- Translation is the identity on carriage-return-free content. -/
theorem univNewlines_no_cr (l : List Char) (h : '\r' ∉ l) : univNewlines l = l := by
  induction l with
  | nil => rfl
  | cons c rest ih =>
    have hc : c ≠ '\r' := fun e => h (by simp [e])
    have hr : '\r' ∉ rest := fun m => h (List.mem_cons_of_mem _ m)
    cases rest with
    | nil => simp [univNewlines, hc]
    | cons c2 rest2 => simp [univNewlines, hc, ih hr]

/-- C10: `read_file` never raises — every failure (unset project path,
missing file, any other I/O error) is returned in-band as a `String`
beginning with `"Error"`, the same type as a successful read, so a file
whose own content begins with `"Error"` is indistinguishable from a
failure at the tool's interface (last conjunct: a file containing
exactly the missing-file message reads identically to a missing file). -/
theorem read_file_in_band_errors :
    (∀ ast rel, truthy ast.currentProjectPath = none →
       read_file ast rel = "Error" ++ ": CURRENT_PROJECT_PATH is not set. Cannot read file.")
    ∧ (∀ ast root rel, truthy ast.currentProjectPath = some root →
       ast.fsRead (pyJoin root rel) = .missing →
       read_file ast rel = "Error" ++ (": File not found at " ++ pyJoin root rel))
    ∧ (∀ ast root rel e, truthy ast.currentProjectPath = some root →
       ast.fsRead (pyJoin root rel) = .err e →
       read_file ast rel = "Error" ++ (" reading file " ++ (pyJoin root rel ++ (": " ++ e))))
    ∧ read_file { sampleState with
          currentProjectPath := some "/p"
          fsRead := fun p => if p = "/p/readme.md"
                             then .ok "Error: File not found at /p/readme.md"
                             else .missing } "readme.md"
      = read_file { sampleState with currentProjectPath := some "/p" } "readme.md" := by
  refine ⟨?_, ?_, ?_, ?_⟩
  · intro ast rel h
    simp [read_file, h]
  · intro ast root rel h hm
    have : ("Error" ++ ": File not found at " : String) = "Error: File not found at " := rfl
    simp [read_file, h, hm, ← String.append_assoc, this]
  · intro ast root rel e h hm
    have h1 : ("Error" ++ " reading file " : String) = "Error reading file " := rfl
    simp [read_file, h, hm, ← String.append_assoc, h1]
  · rfl

/-- Closed instance of `read_file_in_band_errors`: its first conjunct at
the inert sample state. -/
theorem read_file_in_band_errors_witness :
    read_file sampleState "src/app.ts"
      = "Error" ++ ": CURRENT_PROJECT_PATH is not set. Cannot read file." :=
  read_file_in_band_errors.1 sampleState "src/app.ts" rfl

/-- C9 counterexample: the round-trip is not the identity on arbitrary
text.  Writing `"a\rb"` succeeds, but text-mode reading applies
universal-newline translation and returns `"a\nb"` — so the claim as
stated (read returns exactly the written content for arbitrary text)
fails at this input. -/
theorem write_read_round_trip_cr_counterexample :
    (write_file { sampleState with currentProjectPath := some "/p" } "f.txt" "a\rb").1
      = .bool true
    ∧ read_file
        (write_file { sampleState with currentProjectPath := some "/p" } "f.txt" "a\rb").2
        "f.txt" = "a\nb"
    ∧ ("a\nb" : String) ≠ "a\rb" := by
  refine ⟨rfl, rfl, by decide⟩

/-- C9 (amended): with the project path set and unchanged, a successful
`write_file` of carriage-return-free content (in particular the empty
string and content with embedded `"\n"` newlines) followed by
`read_file` of the same relative path returns exactly the written
content; content containing `"\r"` is returned with those sequences
normalised to `"\n"` by the text-mode read. -/
theorem write_read_round_trip (ast : AgentState) (root rel content : String)
    (hp : truthy ast.currentProjectPath = some root)
    (hw : ast.fsWriteErr (pyJoin root rel) = none)
    (hcr : '\r' ∉ content.data) :
    (write_file ast rel content).1 = .bool true
    ∧ read_file (write_file ast rel content).2 rel = content := by
  constructor
  · simp [write_file, hp, hw]
  · simp [write_file, read_file, hp, hw, univNewlines_no_cr content.data hcr]

/-- Closed instance of `write_read_round_trip` at concrete multi-line
content. -/
theorem write_read_round_trip_witness :
    (write_file { sampleState with currentProjectPath := some "/p" } "src/a.ts" "x\n\ny").1
      = .bool true
    ∧ read_file
        (write_file { sampleState with currentProjectPath := some "/p" } "src/a.ts" "x\n\ny").2
        "src/a.ts" = "x\n\ny" :=
  write_read_round_trip { sampleState with currentProjectPath := some "/p" }
    "/p" "src/a.ts" "x\n\ny" rfl rfl (by decide)

/-- The specification's confinement predicate, modelled from the spec:
a location is inside the active project root when it is the root or
extends it below a separator ("no tool may act outside the active
project root"). -/
def underRootSpec (root p : String) : Bool :=
  p == root || strStartsWith p (root ++ "/")

/-- C7 counterexample: path arguments are joined with `os.path.join`,
and an absolute argument replaces the root wholesale.  With the root set
to `/proj`, `read_file "/etc/passwd"` resolves outside the root and the
read is *performed* there (returning the file's content), rather than
being reported as a failure. -/
theorem path_confinement_counterexample :
    underRootSpec "/proj" (pyJoin "/proj" "/etc/passwd") = false
    ∧ read_file { sampleState with
          currentProjectPath := some "/proj"
          fsRead := fun p => if p = "/etc/passwd" then .ok "root:x:0:0" else .missing }
        "/etc/passwd" = "root:x:0:0" := by
  refine ⟨by decide, rfl⟩

/-- C7 (amended): the path tools resolve a supplied path by string-join
against the root with no confinement check: a path that does not begin
with `/` resolves to `root ++ "/" ++ path` (a location under the root as
a string), while a path beginning with `/` discards the root entirely,
and in either case the operation is performed at the joined location
(`read_file` reads it, `delete_file_or_directory` probes it) instead of
an outside-root failure being reported. -/
theorem path_resolution_no_confinement (root rel : String) (hroot : root ≠ "")
    (hslash : strEndsWith root "/" = false) :
    (strStartsWith rel "/" = true → pyJoin root rel = rel)
    ∧ (strStartsWith rel "/" = false → pyJoin root rel = root ++ "/" ++ rel)
    ∧ (∀ ast content, truthy ast.currentProjectPath = some root →
         ast.fsRead (pyJoin root rel) = .ok content →
         read_file ast rel = String.mk (univNewlines content.data))
    ∧ (∀ ast, truthy ast.currentProjectPath = some root →
         ast.pathExists (pyJoin root rel) = false →
         delete_file_or_directory ast rel =
           (.dict [("status", .str "error"),
                   ("message", .str ("Path not found: " ++ pyJoin root rel))], ast)) := by
  refine ⟨?_, ?_, ?_, ?_⟩
  · intro h
    simp [pyJoin] at h ⊢
    simp [h]
  · intro h
    simp [pyJoin] at h ⊢
    simp [h, hroot, hslash]
  · intro ast content hp hr
    simp [read_file, hp, hr]
  · intro ast hp hx
    simp [delete_file_or_directory, hp, hx]

/-- Closed instance of `path_resolution_no_confinement`: both join cases
at the root `/proj`. -/
theorem path_resolution_no_confinement_witness :
    pyJoin "/proj" "/etc/passwd" = "/etc/passwd"
    ∧ pyJoin "/proj" "src/app.ts" = "/proj" ++ "/" ++ "src/app.ts" :=
  ⟨(path_resolution_no_confinement "/proj" "/etc/passwd" (by decide) (by decide)).1 (by decide),
   (path_resolution_no_confinement "/proj" "src/app.ts" (by decide) (by decide)).2.1 (by decide)⟩

/-- The `status` entry of a result dict, as a string. -/
def resultStatus (v : PyVal) : Option String :=
  match pvGet v "status" with
  | some (.str s) => some s
  | _ => none

/-- The `pid` entry of a result dict, when it is an integer. -/
def resultPidInt (v : PyVal) : Option Int :=
  match pvGet v "pid" with
  | some (.int n) => some n
  | _ => none

/-- No live background process is recorded in the process slot. -/
def noAliveServe (ast : AgentState) : Prop :=
  match ast.ngServeProcess with
  | some p => p.alive = false
  | none => True

/-- The spec's abstract status vocabulary for the start tool. -/
inductive SpecStatus where
  | compiling
  | compiled
  | error
  | timeout
deriving DecidableEq

/-- Modelled from the spec: the correspondence between the code's status
strings and the spec table's `status ∈ {compiling, compiled, error,
timeout}` — the code's combined `compiling_or_timeout` is the timeout
outcome, and a bare `compiling` is never returned. -/
def specStatusOf : String → Option SpecStatus
  | "compiled_successfully" => some .compiled
  | "error_during_startup" => some .error
  | "error" => some .error
  | "compiling_or_timeout" => some .timeout
  | "compiling" => some .compiling
  | _ => none

/-- C4 counterexample: the serve tool resolves the working directory
*before* the already-running check, so with a live process recorded but
no resolvable directory (no explicit argument, project path unset — a
state reachable by starting the server with an explicit directory while
the project path is unset) the call returns an `error` status that does
not reference the live process, not `already_running`. -/
theorem start_serve_alive_not_already_running_counterexample :
    resultStatus (start_angular_serve_and_get_initial_output
        { sampleState with ngServeProcess := some ⟨77, true⟩ } "ng serve" none 20).1
      = some "error"
    ∧ resultPidInt (start_angular_serve_and_get_initial_output
        { sampleState with ngServeProcess := some ⟨77, true⟩ } "ng serve" none 20).1
      = none
    ∧ ("error" : String) ≠ "already_running" := by
  exact ⟨rfl, rfl, by decide⟩

/-- C4 (amended): whenever the process handle refers to a live process
*and* a working directory is resolvable (supplied explicitly, or the
project path is truthy), the start tool spawns no second process — the
state, in particular the process slot, is returned unchanged — and
returns `already_running` with the live process's pid; when no directory
is resolvable it instead returns an `error` status, and still spawns
nothing. -/
theorem start_serve_already_running_no_spawn (ast : AgentState) (p : Proc)
    (cmd : String) (wd : Option String) (mds : Int)
    (hp : ast.ngServeProcess = some p) (halive : p.alive = true) :
    (∀ r, serveResolve ast wd = some r →
       resultStatus (start_angular_serve_and_get_initial_output ast cmd wd mds).1
         = some "already_running"
       ∧ resultPidInt (start_angular_serve_and_get_initial_output ast cmd wd mds).1
         = some (p.pid : Int)
       ∧ (start_angular_serve_and_get_initial_output ast cmd wd mds).2 = ast)
    ∧ (serveResolve ast wd = none →
       resultStatus (start_angular_serve_and_get_initial_output ast cmd wd mds).1
         = some "error"
       ∧ (start_angular_serve_and_get_initial_output ast cmd wd mds).2 = ast) := by
  constructor
  · intro r hr
    simp [start_angular_serve_and_get_initial_output, hr, hp, halive,
          resultStatus, resultPidInt, pvGet, pgetV]
  · intro hr
    simp [start_angular_serve_and_get_initial_output, hr,
          resultStatus, resultPidInt, pvGet, pgetV]

/-- Closed instance of `start_serve_already_running_no_spawn` at a live
pid-77 process with the project path set. -/
theorem start_serve_already_running_no_spawn_witness :
    resultStatus (start_angular_serve_and_get_initial_output
        { sampleState with ngServeProcess := some ⟨77, true⟩,
                           currentProjectPath := some "/p" } "ng serve" none 20).1
      = some "already_running"
    ∧ resultPidInt (start_angular_serve_and_get_initial_output
        { sampleState with ngServeProcess := some ⟨77, true⟩,
                           currentProjectPath := some "/p" } "ng serve" none 20).1
      = some 77 :=
  ⟨((start_serve_already_running_no_spawn
      { sampleState with ngServeProcess := some ⟨77, true⟩,
                         currentProjectPath := some "/p" }
      ⟨77, true⟩ "ng serve" none 20 rfl rfl).1 "/p" rfl).1,
   ((start_serve_already_running_no_spawn
      { sampleState with ngServeProcess := some ⟨77, true⟩,
                         currentProjectPath := some "/p" }
      ⟨77, true⟩ "ng serve" none 20 rfl rfl).1 "/p" rfl).2.1⟩

/-- Draining stdout without a success marker collects everything,
leaves nothing queued, and keeps the status. -/
theorem drainStdout_no_marker (q : List String) (s : String)
    (h : ∀ l ∈ q, stdoutMarker l = false) : drainStdout q s = ⟨s, q, []⟩ := by
  induction q with
  | nil => rfl
  | cons line rest ih =>
    have h1 : stdoutMarker line = false := h line (List.mem_cons_self _ _)
    have h2 : ∀ l ∈ rest, stdoutMarker l = false :=
      fun l m => h l (List.mem_cons_of_mem _ m)
    simp [drainStdout, h1, ih h2]

/-- Draining stderr without an error marker collects everything and
keeps the status. -/
theorem drainStderr_no_marker (q : List String) (s : String)
    (h : ∀ l ∈ q, stderrMarker l = false) : drainStderr q s = (s, q) := by
  induction q generalizing s with
  | nil => rfl
  | cons line rest ih =>
    have h1 : stderrMarker line = false := h line (List.mem_cons_self _ _)
    have h2 : ∀ l ∈ rest, stderrMarker l = false :=
      fun l m => h l (List.mem_cons_of_mem _ m)
    simp [drainStderr, h1, ih _ h2]

/-- A monitoring window in which the process stays alive and no line
carries a marker ends with its incoming (non-`compiled`) status and
empty leftovers. -/
theorem monitorLoop_no_marker (ticks : List Tick) (s : String)
    (halive : ∀ t ∈ ticks, t.procAlive = true)
    (hout : ∀ t ∈ ticks, ∀ l ∈ t.stdoutLines, stdoutMarker l = false)
    (herr : ∀ t ∈ ticks, ∀ l ∈ t.stderrLines, stderrMarker l = false)
    (hs : s ≠ "compiled_successfully") :
    ∃ co ce, monitorLoop ticks s [] [] = ⟨s, co, ce, [], []⟩ := by
  induction ticks with
  | nil => exact ⟨[], [], rfl⟩
  | cons t rest ih =>
    have ha : t.procAlive = true := halive t (List.mem_cons_self _ _)
    have ho : ∀ l ∈ t.stdoutLines, stdoutMarker l = false :=
      hout t (List.mem_cons_self _ _)
    have he : ∀ l ∈ t.stderrLines, stderrMarker l = false :=
      herr t (List.mem_cons_self _ _)
    obtain ⟨co, ce, hrec⟩ := ih (fun u m => halive u (List.mem_cons_of_mem _ m))
      (fun u m => hout u (List.mem_cons_of_mem _ m))
      (fun u m => herr u (List.mem_cons_of_mem _ m))
    refine ⟨t.stdoutLines ++ co, t.stderrLines ++ ce, ?_⟩
    simp [monitorLoop, ha, drainStdout_no_marker _ _ ho,
          drainStderr_no_marker _ _ he, hs, hrec]

/-- The stdout drain leaves the status alone or sets
`compiled_successfully`. -/
theorem drainStdout_status (q : List String) (s : String) :
    (drainStdout q s).status = s ∨ (drainStdout q s).status = "compiled_successfully" := by
  induction q with
  | nil => exact Or.inl rfl
  | cons line rest ih =>
    by_cases h : stdoutMarker line = true
    · right; simp [drainStdout, h]
    · simp at h
      simpa [drainStdout, h] using ih

/-- The stderr drain leaves the status alone or sets
`error_during_startup`. -/
theorem drainStderr_status (q : List String) (s : String) :
    (drainStderr q s).1 = s ∨ (drainStderr q s).1 = "error_during_startup" := by
  induction q generalizing s with
  | nil => exact Or.inl rfl
  | cons line rest ih =>
    by_cases h : stderrMarker line = true
    · simp only [drainStderr, h, if_pos]
      rcases ih "error_during_startup" with h1 | h1 <;> simp [h1]
    · simp at h
      simpa [drainStderr, h] using ih s

/-- The monitoring loop's status is its incoming status or one of the
two marker statuses. -/
theorem monitorLoop_status (ticks : List Tick) (s : String)
    (pOut pErr : List String) :
    (monitorLoop ticks s pOut pErr).status = s
    ∨ (monitorLoop ticks s pOut pErr).status = "compiled_successfully"
    ∨ (monitorLoop ticks s pOut pErr).status = "error_during_startup" := by
  induction ticks generalizing s pOut pErr with
  | nil => exact Or.inl rfl
  | cons t rest ih =>
    by_cases ha : t.procAlive = true
    · have hst := drainStdout_status (pOut ++ t.stdoutLines) s
      have hst2 := drainStderr_status (pErr ++ t.stderrLines)
        (drainStdout (pOut ++ t.stdoutLines) s).status
      by_cases hc : (drainStderr (pErr ++ t.stderrLines)
          (drainStdout (pOut ++ t.stdoutLines) s).status).1 = "compiled_successfully"
      · simp only [monitorLoop, ha, hc]
        simp [hc]
      · simp only [monitorLoop, ha, hc]
        simp only [if_neg hc, if_false]
        rcases ih (drainStderr (pErr ++ t.stderrLines)
            (drainStdout (pOut ++ t.stdoutLines) s).status).1
            (drainStdout (pOut ++ t.stdoutLines) s).leftover [] with h1 | h1 | h1
        · rw [h1]
          rcases hst2 with h2 | h2
          · rw [h2]
            rcases hst with h3 | h3
            · exact Or.inl h3
            · exact Or.inr (Or.inl h3)
          · exact Or.inr (Or.inr h2)
        · exact Or.inr (Or.inl h1)
        · exact Or.inr (Or.inr h1)
    · simp at ha
      simp [monitorLoop, ha]

/-- Every spawn outcome yields a status string in the spec's abstract
status set. -/
theorem serveSpawn_status (ast : AgentState) (cmd r : String) (mds : Int) :
    ∃ s, resultStatus (serveSpawn ast cmd r mds).1 = some s
         ∧ (specStatusOf s).isSome = true := by
  cases hsp : ast.spawn with
  | fnf =>
    exact ⟨"error", by simp [serveSpawn, hsp, resultStatus, pvGet, pgetV], by decide⟩
  | exn e =>
    exact ⟨"error", by simp [serveSpawn, hsp, resultStatus, pvGet, pgetV], by decide⟩
  | ok pid ticks fo fe alv =>
    rcases monitorLoop_status ticks "compiling" [] [] with h | h | h
    · refine ⟨"compiling_or_timeout", ?_, by decide⟩
      simp [serveSpawn, hsp, h, resultStatus, pvGet, pgetV]
    · refine ⟨"compiled_successfully", ?_, by decide⟩
      simp [serveSpawn, hsp, h, resultStatus, pvGet, pgetV]
    · refine ⟨"error_during_startup", ?_, by decide⟩
      simp [serveSpawn, hsp, h, resultStatus, pvGet, pgetV]

/-- C6: the start tool's status refines the spec's
`{compiling, compiled, error, timeout}` vocabulary (first conjunct: every
actual start attempt — no live process recorded — produces a status in
the image of `specStatusOf`), and when the monitoring window elapses with
the process alive and no success or error marker on any line, the
returned status is the timeout one (`compiling_or_timeout`), the process
handle is recorded as still running, and the dispatch loop's error
classification does not treat the result as an error. -/
theorem start_serve_timeout_status
    (ast : AgentState) (cmd r : String) (wd : Option String) (mds : Int)
    (pid : Nat) (ticks : List Tick) (fo fe : List String)
    (hres : serveResolve ast wd = some r) (hno : noAliveServe ast)
    (hspawn : ast.spawn = .ok pid ticks fo fe true)
    (halive : ∀ t ∈ ticks, t.procAlive = true)
    (hout : ∀ t ∈ ticks, ∀ l ∈ t.stdoutLines, stdoutMarker l = false)
    (herr : ∀ t ∈ ticks, ∀ l ∈ t.stderrLines, stderrMarker l = false) :
    (∀ (ast2 : AgentState) cmd2 wd2 mds2 r2, serveResolve ast2 wd2 = some r2 →
       noAliveServe ast2 →
       ∃ s, resultStatus
              (start_angular_serve_and_get_initial_output ast2 cmd2 wd2 mds2).1
            = some s ∧ (specStatusOf s).isSome = true)
    ∧ resultStatus (start_angular_serve_and_get_initial_output ast cmd wd mds).1
        = some "compiling_or_timeout"
    ∧ specStatusOf "compiling_or_timeout" = some .timeout
    ∧ (start_angular_serve_and_get_initial_output ast cmd wd mds).2.ngServeProcess
        = some ⟨pid, true⟩
    ∧ (classifyError "start_angular_serve_and_get_initial_output"
        (start_angular_serve_and_get_initial_output ast cmd wd mds).1 (some cmd)).1
        = false := by
  have hserve : ∀ (ast2 : AgentState) cmd2 wd2 mds2 r2,
      serveResolve ast2 wd2 = some r2 → noAliveServe ast2 →
      start_angular_serve_and_get_initial_output ast2 cmd2 wd2 mds2
        = serveSpawn ast2 cmd2 r2 mds2 := by
    intro ast2 cmd2 wd2 mds2 r2 h2 hno2
    unfold noAliveServe at hno2
    cases hng : ast2.ngServeProcess with
    | none => simp [start_angular_serve_and_get_initial_output, h2, hng]
    | some p =>
      rw [hng] at hno2
      simp [start_angular_serve_and_get_initial_output, h2, hng, hno2]
  obtain ⟨co, ce, hm⟩ := monitorLoop_no_marker ticks "compiling" halive hout herr
    (by decide)
  have hmain : start_angular_serve_and_get_initial_output ast cmd wd mds
      = serveSpawn ast cmd r mds := hserve ast cmd wd mds r hres hno
  refine ⟨?_, ?_, rfl, ?_, ?_⟩
  · intro ast2 cmd2 wd2 mds2 r2 h2 hno2
    rw [hserve ast2 cmd2 wd2 mds2 r2 h2 hno2]
    exact serveSpawn_status ast2 cmd2 r2 mds2
  · rw [hmain]
    simp [serveSpawn, hspawn, hm, resultStatus, pvGet, pgetV]
  · rw [hmain]
    simp [serveSpawn, hspawn, hm]
  · rw [hmain]
    simp [serveSpawn, hspawn, hm, classifyError, pvStatusIs, pvGet, pgetV]

/-- Closed instance of `start_serve_timeout_status`: a two-iteration
window with unremarkable output ends in `compiling_or_timeout` with the
pid-42 process still recorded as running. -/
theorem start_serve_timeout_status_witness :
    resultStatus (start_angular_serve_and_get_initial_output
        { sampleState with
            currentProjectPath := some "/p"
            spawn := .ok 42 [⟨true, ["building chunks..."], []⟩, ⟨true, [], []⟩] [] [] true }
        "ng serve" none 20).1 = some "compiling_or_timeout"
    ∧ (start_angular_serve_and_get_initial_output
        { sampleState with
            currentProjectPath := some "/p"
            spawn := .ok 42 [⟨true, ["building chunks..."], []⟩, ⟨true, [], []⟩] [] [] true }
        "ng serve" none 20).2.ngServeProcess = some ⟨42, true⟩ :=
  ⟨(start_serve_timeout_status
      { sampleState with
          currentProjectPath := some "/p"
          spawn := .ok 42 [⟨true, ["building chunks..."], []⟩, ⟨true, [], []⟩] [] [] true }
      "ng serve" "/p" none 20 42 [⟨true, ["building chunks..."], []⟩, ⟨true, [], []⟩] [] []
      rfl trivial rfl (by decide) (by decide) (by decide)).2.1,
   (start_serve_timeout_status
      { sampleState with
          currentProjectPath := some "/p"
          spawn := .ok 42 [⟨true, ["building chunks..."], []⟩, ⟨true, [], []⟩] [] [] true }
      "ng serve" "/p" none 20 42 [⟨true, ["building chunks..."], []⟩, ⟨true, [], []⟩] [] []
      rfl trivial rfl (by decide) (by decide) (by decide)).2.2.2.1⟩

/-- One tracker update never pushes the counter above the ceiling. -/
theorem updateFixState_le (fx : FixState) (tn : String) (ie : Bool)
    (cf ac : Option String) (h : fx.attempts ≤ MAX_ERROR_FIX_ATTEMPTS) :
    (updateFixState fx tn ie cf ac).attempts ≤ MAX_ERROR_FIX_ATTEMPTS := by
  unfold MAX_ERROR_FIX_ATTEMPTS at h
  unfold updateFixState MAX_ERROR_FIX_ATTEMPTS
  repeat' split
  all_goals simp_all [apply_ite FixState.attempts]
  all_goals first
    | omega
    | (split
       all_goals simp_all
       all_goals omega)

/-- Iterating events from the per-turn reset state keeps the counter at
or below the ceiling. -/
theorem runFixEvents_le (evts : List FixEvent) :
    (runFixEvents evts).attempts ≤ MAX_ERROR_FIX_ATTEMPTS := by
  have main : ∀ (l : List FixEvent) (fx : FixState),
      fx.attempts ≤ MAX_ERROR_FIX_ATTEMPTS →
      (l.foldl fixStep fx).attempts ≤ MAX_ERROR_FIX_ATTEMPTS := by
    intro l
    induction l with
    | nil => intro fx h; exact h
    | cons e rest ih =>
      intro fx h
      have hstep : (fixStep fx e).attempts ≤ MAX_ERROR_FIX_ATTEMPTS := by
        cases e with
        | failure cmd tn => exact updateFixState_le fx tn true (some cmd) (some cmd) h
        | success ac => exact updateFixState_le fx "" false none ac h
      simpa [List.foldl] using ih (fixStep fx e) hstep
  simpa [runFixEvents] using main evts ⟨none, 0⟩ (by simp [MAX_ERROR_FIX_ATTEMPTS])

/-- C1: the per-turn error-recovery tracker.  For a truthy failing
command `c` and a different failing command `c'`: (1) a repeated failure
of the tracked command below the ceiling strictly increments the counter;
(2) a failure of a different command replaces the tracker and restarts
the counter at 1; (3) a failure with no tracker starts at 1; (4) the
first subsequent success of the tracked command clears the tracker and
resets the counter to zero; (5) a failure of the tracked command at the
ceiling (3) does not increment the counter and drops the tracker; (6) the
next failure of that same command then starts afresh at 1; and (7) over
every failure/success interleaving of a user turn the counter never
exceeds the ceiling. -/
theorem error_fix_tracker_lifecycle (c c' tn tn' tn'' : String) (a : Nat)
    (hc : c ≠ "") (hc' : c' ≠ "") (hne : c' ≠ c) :
    (a < MAX_ERROR_FIX_ATTEMPTS →
       fixStep ⟨some ⟨c, tn⟩, a⟩ (.failure c tn') = ⟨some ⟨c, tn⟩, a + 1⟩)
    ∧ fixStep ⟨some ⟨c, tn⟩, a⟩ (.failure c' tn') = ⟨some ⟨c', tn'⟩, 1⟩
    ∧ fixStep ⟨none, a⟩ (.failure c tn) = ⟨some ⟨c, tn⟩, 1⟩
    ∧ fixStep ⟨some ⟨c, tn⟩, a⟩ (.success (some c)) = ⟨none, 0⟩
    ∧ fixStep ⟨some ⟨c, tn⟩, MAX_ERROR_FIX_ATTEMPTS⟩ (.failure c tn')
        = ⟨none, MAX_ERROR_FIX_ATTEMPTS⟩
    ∧ fixStep (fixStep ⟨some ⟨c, tn⟩, MAX_ERROR_FIX_ATTEMPTS⟩ (.failure c tn'))
        (.failure c tn'') = ⟨some ⟨c, tn''⟩, 1⟩
    ∧ ∀ evts, (runFixEvents evts).attempts ≤ MAX_ERROR_FIX_ATTEMPTS := by
  have hne2 : ¬ (c = c') := fun h => hne h.symm
  refine ⟨?_, ?_, ?_, ?_, ?_, ?_, runFixEvents_le⟩
  · intro hlt
    simp [fixStep, updateFixState, hc, hlt]
  · simp [fixStep, updateFixState, hc', hne2, MAX_ERROR_FIX_ATTEMPTS]
  · simp [fixStep, updateFixState, hc, MAX_ERROR_FIX_ATTEMPTS]
  · simp [fixStep, updateFixState]
  · simp [fixStep, updateFixState, hc, MAX_ERROR_FIX_ATTEMPTS]
  · simp [fixStep, updateFixState, hc, MAX_ERROR_FIX_ATTEMPTS]

/-- Closed instance of `error_fix_tracker_lifecycle` for the commands
`ng build` / `ng test` at counter value 1. -/
theorem error_fix_tracker_lifecycle_witness :
    fixStep ⟨some ⟨"ng build", "execute_shell_command"⟩, 1⟩
        (.failure "ng build" "execute_shell_command")
      = ⟨some ⟨"ng build", "execute_shell_command"⟩, 2⟩
    ∧ fixStep ⟨some ⟨"ng build", "execute_shell_command"⟩, 1⟩ (.success (some "ng build"))
      = ⟨none, 0⟩
    ∧ fixStep ⟨some ⟨"ng build", "execute_shell_command"⟩, 3⟩
        (.failure "ng build" "execute_shell_command")
      = ⟨none, 3⟩ :=
  ⟨(error_fix_tracker_lifecycle "ng build" "ng test" "execute_shell_command"
      "execute_shell_command" "x" 1 (by decide) (by decide) (by decide)).1 (by decide),
   (error_fix_tracker_lifecycle "ng build" "ng test" "execute_shell_command"
      "execute_shell_command" "x" 1 (by decide) (by decide) (by decide)).2.2.2.1,
   (error_fix_tracker_lifecycle "ng build" "ng test" "execute_shell_command"
      "execute_shell_command" "x" 1 (by decide) (by decide) (by decide)).2.2.2.2.1⟩

/-- C3: a tool-call request whose name is not in the registry never
raises — for every unregistered name and every argument mapping,
dispatch returns (state and history untouched) the structured
`Unknown tool` error payload as that call's result, to be fed back to
the model. -/
theorem unknown_tool_structured_result (name : String) (args : List (String × PyVal))
    (ast : AgentState) (fx : FixState) (hist : List Turn)
    (h : registryNames.contains name = false) :
    ∃ fx2, dispatchOne ast fx hist ⟨name, args⟩
      = .ok ⟨name, .dict [("error", .str ("Unknown tool: " ++ name))]⟩ ast fx2 hist := by
  unfold dispatchOne dispatchRaw
  rw [if_pos h]
  exact ⟨_, rfl⟩

/-- Closed instance of `unknown_tool_structured_result` at the name
`frobnicate`. -/
theorem unknown_tool_structured_result_witness :
    ∃ fx2, dispatchOne sampleState ⟨none, 0⟩ [] ⟨"frobnicate", [("command", .str "x")]⟩
      = .ok ⟨"frobnicate", .dict [("error", .str ("Unknown tool: " ++ "frobnicate"))]⟩
          sampleState fx2 [] :=
  unknown_tool_structured_result "frobnicate" [("command", .str "x")] sampleState
    ⟨none, 0⟩ [] (by decide)

/-- A successfully dispatched call's result part carries the call's tool
name. -/
theorem dispatchOne_name (ast : AgentState) (fx : FixState) (hist : List Turn)
    (call : FunctionCall) (part : RespPart) (a : AgentState) (f : FixState)
    (h2 : List Turn) (hok : dispatchOne ast fx hist call = .ok part a f h2) :
    part.name = call.name := by
  unfold dispatchOne at hok
  cases hraw : dispatchRaw ast hist call with
  | raisedR e a1 h1 => rw [hraw] at hok; simp at hok
  | ok payload a1 h1 =>
    rw [hraw] at hok
    simp [finishDispatch] at hok
    rw [← hok.1]

/-- A successful batch dispatch produces exactly one result part per
call, in request order (same length, and the i-th part names the i-th
call's tool). -/
theorem dispatchCalls_ok_spec : ∀ (calls : List FunctionCall) (ast : AgentState)
    (fx : FixState) (hist : List Turn) (parts : List RespPart) (a : AgentState)
    (f : FixState) (h2 : List Turn),
    dispatchCalls calls ast fx hist = .ok parts a f h2 →
    parts.length = calls.length
    ∧ ∀ i (hi : i < parts.length) (hc : i < calls.length),
        (parts.get ⟨i, hi⟩).name = (calls.get ⟨i, hc⟩).name := by
  intro calls
  induction calls with
  | nil =>
    intro ast fx hist parts a f h2 hok
    simp [dispatchCalls] at hok
    obtain ⟨rfl, -, -, -⟩ := hok
    exact ⟨rfl, fun i hi hc => absurd hc (by simp)⟩
  | cons c rest ih =>
    intro ast fx hist parts a f h2 hok
    unfold dispatchCalls at hok
    split at hok
    · simp at hok
    · rename_i part a1 f1 hh1 hone
      split at hok
      · simp at hok
      · rename_i parts2 a2 f2 hh2 hrest
        simp at hok
        obtain ⟨rfl, -, -, -⟩ := hok
        obtain ⟨hlen, hnm⟩ := ih a1 f1 hh1 parts2 a2 f2 hh2 hrest
        refine ⟨by simp [hlen], ?_⟩
        intro i hi hc
        cases i with
        | zero => simpa using dispatchOne_name ast fx hist c part a1 f1 hh1 hone
        | succ j =>
          simpa using hnm j (by simpa using hi) (by simpa using hc)

/-- C2 counterexample: the claim is not true of *every* model turn — a
model turn whose single tool-call request raises during dispatch (here
`ask_user_confirmation` on exhausted stdin) makes the loop append no
tool-result turn at all: the turn ends with the transcript unchanged
(one request, zero result parts) and the exception logged at the top
level. -/
theorem tool_batch_order_counterexample :
    (extractCalls
        ([(⟨"model", [.functionCall "ask_user_confirmation"
                        [("prompt_message", .str "Apply the fix?")]]⟩ : Turn)].getLastD
          ⟨"", []⟩)).length = 1
    ∧ turnLoop []
        [⟨"model", [.functionCall "ask_user_confirmation"
                      [("prompt_message", .str "Apply the fix?")]]⟩]
        sampleState ⟨none, 0⟩
      = ⟨[⟨"model", [.functionCall "ask_user_confirmation"
                       [("prompt_message", .str "Apply the fix?")]]⟩],
         sampleState, some "EOFError: EOF when reading a line"⟩ := by
  exact ⟨rfl, rfl⟩

/-- C2 (amended): when the last history turn is a model turn requesting
the calls `calls` (N of them, N ≥ 1) and the batch dispatch completes
without an uncaught raise — only the confirmation tool's interactive
read, the `ng new` parent-directory prompt, or argument-binding mismatch
can raise — the loop body appends exactly one `tool` turn whose parts
are the result parts in order: one per dispatched call — unregistered
names included — with the i-th result part naming the i-th requested
call.  When a call raises, no tool-result turn is appended and the turn
is abandoned. -/
theorem tool_batch_order (calls : List FunctionCall) (ast : AgentState) (fx : FixState)
    (hist : List Turn) (parts : List RespPart) (a : AgentState) (f : FixState)
    (h2 : List Turn)
    (hcalls : extractCalls (hist.getLastD ⟨"", []⟩) = calls)
    (hne : calls ≠ [])
    (hok : dispatchCalls calls ast fx hist = .ok parts a f h2) :
    turnStep hist ast fx = .toLLM (h2 ++ [⟨"tool", parts.map respToPart⟩]) a f
    ∧ parts.length = calls.length
    ∧ (parts.map respToPart).length = calls.length
    ∧ ∀ i (hi : i < parts.length) (hc : i < calls.length),
        (parts.get ⟨i, hi⟩).name = (calls.get ⟨i, hc⟩).name := by
  obtain ⟨hlen, hnm⟩ := dispatchCalls_ok_spec calls ast fx hist parts a f h2 hok
  have hpe : parts.isEmpty = false := by
    cases calls with
    | nil => exact absurd rfl hne
    | cons c cs =>
      cases parts with
      | nil => simp at hlen
      | cons p ps => rfl
  constructor
  · unfold turnStep
    rw [hcalls]
    cases calls with
    | nil => exact absurd rfl hne
    | cons c cs => simp [hok, hpe]
  · exact ⟨hlen, by simp [hlen], hnm⟩

/-- Closed instance of `tool_batch_order`: a model turn requesting
`stop_angular_server` followed by an unregistered tool produces one tool
turn with exactly those two result parts in order. -/
theorem tool_batch_order_witness :
    turnStep [⟨"model", [.functionCall "stop_angular_server" [],
                         .functionCall "frobnicate" []]⟩] sampleState ⟨none, 0⟩
      = .toLLM
          ([⟨"model", [.functionCall "stop_angular_server" [],
                       .functionCall "frobnicate" []]⟩]
            ++ [⟨"tool",
                 ([⟨"stop_angular_server",
                     .dict [("status", .str "not_running"),
                            ("message",
                             .str "'ng serve' process not found or not running.")]⟩,
                   ⟨"frobnicate", .dict [("error", .str "Unknown tool: frobnicate")]⟩]
                   : List RespPart).map respToPart⟩])
          sampleState ⟨none, 0⟩
    ∧ ([⟨"stop_angular_server",
          .dict [("status", .str "not_running"),
                 ("message", .str "'ng serve' process not found or not running.")]⟩,
        ⟨"frobnicate", .dict [("error", .str "Unknown tool: frobnicate")]⟩]
        : List RespPart).length
      = ([⟨"stop_angular_server", []⟩, ⟨"frobnicate", []⟩] : List FunctionCall).length :=
  ⟨(tool_batch_order [⟨"stop_angular_server", []⟩, ⟨"frobnicate", []⟩]
      sampleState ⟨none, 0⟩
      [⟨"model", [.functionCall "stop_angular_server" [], .functionCall "frobnicate" []]⟩]
      [⟨"stop_angular_server",
         .dict [("status", .str "not_running"),
                ("message", .str "'ng serve' process not found or not running.")]⟩,
       ⟨"frobnicate", .dict [("error", .str "Unknown tool: frobnicate")]⟩]
      sampleState ⟨none, 0⟩
      [⟨"model", [.functionCall "stop_angular_server" [], .functionCall "frobnicate" []]⟩]
      rfl (by simp) rfl).1,
   (tool_batch_order [⟨"stop_angular_server", []⟩, ⟨"frobnicate", []⟩]
      sampleState ⟨none, 0⟩
      [⟨"model", [.functionCall "stop_angular_server" [], .functionCall "frobnicate" []]⟩]
      [⟨"stop_angular_server",
         .dict [("status", .str "not_running"),
                ("message", .str "'ng serve' process not found or not running.")]⟩,
       ⟨"frobnicate", .dict [("error", .str "Unknown tool: frobnicate")]⟩]
      sampleState ⟨none, 0⟩
      [⟨"model", [.functionCall "stop_angular_server" [], .functionCall "frobnicate" []]⟩]
      rfl (by simp) rfl).2.1⟩

/-- String value at a key of a result dict. -/
def pvGetStr (v : PyVal) (k : String) : Option String :=
  match pvGet v k with
  | some (.str s) => some s
  | _ => none

/-- C8 counterexample: with the project path unset and no explicit
working directory, `execute_shell_command` does *not* fail fast when the
command contains `"ng new"` (line 73's exemption): the command is
executed — here the shell oracle answers with its output — with no
working directory at all, instead of the descriptive
`Working directory not set.` error being returned. -/
theorem fail_fast_ng_new_counterexample :
    pvGetStr (execute_shell_command
        { sampleState with shellExec := fun _ _ => .ok "CREATE app/\n" "" 0 }
        "ng new app" none).1 "stdout" = some "CREATE app/\n"
    ∧ pvGetStr (execute_shell_command
        { sampleState with shellExec := fun _ _ => .ok "CREATE app/\n" "" 0 }
        "ng new app" none).1 "stderr" = some ""
    ∧ ("" : String) ≠ "Error: Working directory not set." := by
  exact ⟨rfl, rfl, by decide⟩

/-- C8 (amended): with the project path unset (falsy) and no explicit
working directory, every path-dependent tool fails fast with its
descriptive error result and performs no operation (the state is
returned unchanged) — except `execute_shell_command` for a command
containing `"ng new"`, which instead runs the command with no resolved
working directory (last conjunct: the shell oracle's answer at
`cwd = None` becomes the result). -/
theorem unset_path_fail_fast (ast : AgentState)
    (h : truthy ast.currentProjectPath = none) :
    (∀ cmd, strContains cmd "ng new" = false →
       execute_shell_command ast cmd none
         = (.dict [("stdout", .str ""),
                   ("stderr", .str "Error: Working directory not set."),
                   ("exit_code", .int 1)], ast))
    ∧ (∀ rel, read_file ast rel
         = "Error: CURRENT_PROJECT_PATH is not set. Cannot read file.")
    ∧ (∀ rel content, write_file ast rel content = (.bool false, ast))
    ∧ (∀ rel, list_directory_contents ast rel
         = (.dict [("error", .str "CURRENT_PROJECT_PATH is not set."),
                   ("contents", .list [])], ast))
    ∧ (∀ rel, delete_file_or_directory ast rel
         = (.dict [("status", .str "error"),
                   ("message", .str "CURRENT_PROJECT_PATH is not set.")], ast))
    ∧ (∀ cmd mds, start_angular_serve_and_get_initial_output ast cmd none mds
         = (.dict [("status", .str "error"),
                   ("message", .str "Working directory not set."), ("pid", .pynone),
                   ("initial_stdout_log", .str ""), ("initial_stderr_log", .str "")],
            ast))
    ∧ (∀ cmd so se c, strContains cmd "ng new" = true → ast.shellExec cmd none = .ok so se c →
         pvGetStr (execute_shell_command ast cmd none).1 "stdout" = some so) := by
  refine ⟨?_, ?_, ?_, ?_, ?_, ?_, ?_⟩
  · intro cmd hcmd
    simp [execute_shell_command, execShellResolve, h, hcmd]
  · intro rel
    simp [read_file, h]
  · intro rel content
    simp [write_file, h]
  · intro rel
    simp [list_directory_contents, h]
  · intro rel
    simp [delete_file_or_directory, h]
  · intro cmd mds
    simp [start_angular_serve_and_get_initial_output, serveResolve, h]
  · intro cmd so se c hcmd hshell
    by_cases hz : c = 0
    · subst hz
      cases hname : ngNewNameFromTokens cmd with
      | none =>
        simp [execute_shell_command, execShellResolve, h, hcmd, hshell, hname,
              pvGetStr, pvGet, pgetV]
      | some pname =>
        simp only [execute_shell_command, execShellResolve, h, hcmd, hshell, hname]
        simp [truthy, hshell, pvGetStr, pvGet, pgetV]
    · simp [execute_shell_command, execShellResolve, h, hcmd, hshell, hz,
            pvGetStr, pvGet, pgetV]

/-- Closed instance of `unset_path_fail_fast`: the run-command and
read-file conjuncts at the inert sample state. -/
theorem unset_path_fail_fast_witness :
    execute_shell_command sampleState "ng build" none
      = (.dict [("stdout", .str ""),
                ("stderr", .str "Error: Working directory not set."),
                ("exit_code", .int 1)], sampleState)
    ∧ read_file sampleState "angular.json"
      = "Error: CURRENT_PROJECT_PATH is not set. Cannot read file." :=
  ⟨(unset_path_fail_fast sampleState rfl).1 "ng build" (by decide),
   (unset_path_fail_fast sampleState rfl).2.1 "angular.json"⟩

/-- C5 counterexample: not every exception raised while executing a
dispatched tool is converted into a payload for the model.  Dispatching
`ask_user_confirmation` when the operator's stdin is exhausted raises
`EOFError` out of the tool, through the dispatch loop, to the top-level
handler: the turn ends with the exception logged and *no* tool-result
turn handed back to the model (the transcript ends at the model's
request). -/
theorem tool_exception_counterexample :
    (process_user_command "hi"
        [.ok [.functionCall "ask_user_confirmation" [("prompt_message", .str "Proceed?")]]]
        [] sampleState).raised = some "EOFError: EOF when reading a line"
    ∧ (process_user_command "hi"
        [.ok [.functionCall "ask_user_confirmation" [("prompt_message", .str "Proceed?")]]]
        [] sampleState).history
      = [⟨"user", [.text "hi"]⟩,
         ⟨"model", [.functionCall "ask_user_confirmation"
                      [("prompt_message", .str "Proceed?")]]⟩] := by
  exact ⟨rfl, rfl⟩

/-- C5 (amended): the seven tools that wrap their work in exception
handlers (`execute_shell_command`, the serve starter/stopper, the four
file tools) never raise once their arguments are bound — every oracle
outcome is converted into an in-band result (first conjunct).  The
confirmation tool's unguarded `input()` is the exception: on exhausted
stdin it raises `EOFError` (second conjunct), which propagates to the
same top-level handler as model-communication failures, where the turn
is abandoned with the exception logged, the state untouched, and the
transcript left exactly as accumulated — not rolled back — for the next
utterance (third conjunct, for every prior transcript). -/
theorem tool_exception_conversion (ast : AgentState) (bc : BoundCall)
    (hnotask : ∀ p, bc ≠ .ask p) :
    (∃ v a2, runBound ast bc = .ok (v, a2))
    ∧ (∀ p, ast.userInputs = [] →
         runBound ast (.ask p) = .error "EOFError: EOF when reading a line")
    ∧ (∀ hist0 : List Turn,
         process_user_command "hi"
             [.ok [.functionCall "ask_user_confirmation"
                     [("prompt_message", .str "Go ahead?")]]]
             hist0 sampleState
           = ⟨hist0 ++ [⟨"user", [.text "hi"]⟩,
                        ⟨"model", [.functionCall "ask_user_confirmation"
                                     [("prompt_message", .str "Go ahead?")]]⟩],
              sampleState, some "EOFError: EOF when reading a line"⟩) := by
  refine ⟨?_, ?_, ?_⟩
  · cases bc with
    | ask p => exact absurd rfl (hnotask p)
    | exec c wd => exact ⟨_, _, rfl⟩
    | serve c wd mds => exact ⟨_, _, rfl⟩
    | stop => exact ⟨_, _, rfl⟩
    | write r c => exact ⟨_, _, rfl⟩
    | readf r => exact ⟨_, _, rfl⟩
    | listd r => exact ⟨_, _, rfl⟩
    | delete r => exact ⟨_, _, rfl⟩
  · intro p hinp
    simp [runBound, hinp, ask_user_confirmation]
  · intro hist0
    have hstep : turnStep
        ((hist0 ++ [(⟨"user", [.text "hi"]⟩ : Turn)])
          ++ [(⟨"model", [.functionCall "ask_user_confirmation"
                            [("prompt_message", .str "Go ahead?")]]⟩ : Turn)])
        sampleState ⟨none, 0⟩
        = .raisedS "EOFError: EOF when reading a line"
            ((hist0 ++ [(⟨"user", [.text "hi"]⟩ : Turn)])
              ++ [(⟨"model", [.functionCall "ask_user_confirmation"
                                [("prompt_message", .str "Go ahead?")]]⟩ : Turn)])
            sampleState := by
      unfold turnStep
      rw [List.getLastD_concat]
      rfl
    show turnLoop [] ((hist0 ++ [(⟨"user", [.text "hi"]⟩ : Turn)])
          ++ [(⟨"model", [.functionCall "ask_user_confirmation"
                            [("prompt_message", .str "Go ahead?")]]⟩ : Turn)])
        sampleState ⟨none, 0⟩ = _
    unfold turnLoop
    rw [hstep]
    simp

/-- Closed instance of `tool_exception_conversion`: the guarded
`read_file` dispatch is total at the sample state. -/
theorem tool_exception_conversion_witness :
    ∃ v a2, runBound sampleState (.readf "src/app.ts") = .ok (v, a2) :=
  (tool_exception_conversion sampleState (.readf "src/app.ts")
    (fun _ hp => nomatch hp)).1
